import Mathlib

/-!
# nnstreamer: tensor_filter element and tensor_transform conversions

A shallow embedding of `tensor_filter/tensor_filter.c` (the filter element's
write-once configuration, its rank computation, its capability fixing and its
processing and negotiation hooks), followed by a model of the element-wise
conversions of tensor_transform that `tests/nnstreamer_plugins/unittest_plugins.cpp`
exercises.

Conventions of the embedding of `tensor_filter.c`:

* `g_assert (c)` with `c` false aborts the call. A call returns a `Run`: the
  element as it stands when the call returns or aborts, whether it aborted,
  and the externally visible events of the call.
* the declarations of `tensor_filter.h` and `tensor_common.h` are not part of
  the sources at hand; the enumerations are rebuilt from their uses, the
  table `nnfw_support_status`, the file system and the GStreamer pad calls are
  parameters (`Env`), and the helpers of tensor_common are modelled from the
  specification, each marked so.
-/

namespace NNStreamer

/-! ## Declarations of tensor_filter.h / tensor_common.h used by tensor_filter.c -/

/-- The macro NNS_TENSOR_RANK_LIMIT: `gst_tensor_filter_init` fills the four
axes 0..3 of each dimension array. -/
def NNS_TENSOR_RANK_LIMIT : Nat := 4

/-- A dimension array `uint32_t[NNS_TENSOR_RANK_LIMIT]`, innermost axis first. -/
abbrev tensor_dim := Fin 4 → Nat

/-- The dimension array with the four given axes. -/
def mkDim (a b c d : Nat) : tensor_dim := fun i =>
  match i with
  | ⟨0, _⟩ => a
  | ⟨1, _⟩ => b
  | ⟨2, _⟩ => c
  | ⟨_, _⟩ => d

/-- The enumeration tensor_type; `_NNS_END` marks "not initialized". -/
inductive tensor_type
  | _NNS_INT32 | _NNS_UINT32 | _NNS_INT16 | _NNS_UINT16 | _NNS_INT8 | _NNS_UINT8
  | _NNS_FLOAT64 | _NNS_FLOAT32 | _NNS_INT64 | _NNS_UINT64 | _NNS_END
  deriving DecidableEq, Repr

open tensor_type

/-- The enumeration nnfw_type, as an `int`: the designated initialisers of
`tensor_filter_supported` and `nnfw_names` list the identifiers in this order,
and `find_key_strv` stores an index or -1 into the same field. -/
def _T_F_UNDEFINED : Int := 0
/-- Identifier of the custom back-end. -/
def _T_F_CUSTOM : Int := 1
/-- Identifier of the tensorflow-lite back-end. -/
def _T_F_TENSORFLOW_LITE : Int := 2
/-- Identifier of the tensorflow back-end. -/
def _T_F_TENSORFLOW : Int := 3
/-- Identifier of the caffe2 back-end. -/
def _T_F_CAFFE2 : Int := 4

/-- The back-end descriptors `GstTensor_Filter_Framework` that exist as
objects: `NNS_support_custom` and `NNS_support_tensorflow_lite`. -/
inductive GstTensor_Filter_Framework
  | NNS_support_custom
  | NNS_support_tensorflow_lite
  deriving DecidableEq, Repr

open GstTensor_Filter_Framework

/-- The table `tensor_filter_supported[]`: `none` is a NULL entry. An index
outside the initialised entries reads the terminating 0 (or beyond), taken as
NULL. -/
def tensor_filter_supported (nnfw : Int) : Option GstTensor_Filter_Framework :=
  if nnfw = _T_F_UNDEFINED then none
  else if nnfw = _T_F_CUSTOM then some NNS_support_custom
  else if nnfw = _T_F_TENSORFLOW_LITE then some NNS_support_tensorflow_lite
  else if nnfw = _T_F_TENSORFLOW then none
  else if nnfw = _T_F_CAFFE2 then none
  else none

/-- The table `nnfw_names[]` up to its terminating 0. -/
def nnfw_names : List String :=
  ["Not supported", "custom", "tensorflow-lite", "tensorflow", "caffe2"]

/-- Modelled from the spec: `find_key_strv` of tensor_common is absent; it is
the `parse_name`-style lookup of a key in a NULL-terminated string table,
case-sensitive, giving the index of the entry that equals the key, or -1. -/
def find_key_strv : List String → String → Int
  | [], _ => -1
  | s :: rest, key =>
    if s = key then 0
    else
      let r := find_key_strv rest key
      if r = -1 then -1 else r + 1

/-- Modelled from the spec: the table `tensor_element_typename[]` of
tensor_common is absent; it gives each element type its canonical lowercase
name, and no name (NULL) for `_NNS_END`. -/
def tensor_element_typename : tensor_type → Option String
  | _NNS_INT32 => some "int32"
  | _NNS_UINT32 => some "uint32"
  | _NNS_INT16 => some "int16"
  | _NNS_UINT16 => some "uint16"
  | _NNS_INT8 => some "int8"
  | _NNS_UINT8 => some "uint8"
  | _NNS_FLOAT64 => some "float64"
  | _NNS_FLOAT32 => some "float32"
  | _NNS_INT64 => some "int64"
  | _NNS_UINT64 => some "uint64"
  | _NNS_END => none

/-- Modelled from the spec: `get_tensor_type` of tensor_common is absent; it
is `parse_name`, matching the canonical names case-sensitively, and gives
`_NNS_END` for any other string. -/
def get_tensor_type (typestr : String) : tensor_type :=
  if typestr = "int32" then _NNS_INT32
  else if typestr = "uint32" then _NNS_UINT32
  else if typestr = "int16" then _NNS_INT16
  else if typestr = "uint16" then _NNS_UINT16
  else if typestr = "int8" then _NNS_INT8
  else if typestr = "uint8" then _NNS_UINT8
  else if typestr = "float64" then _NNS_FLOAT64
  else if typestr = "float32" then _NNS_FLOAT32
  else if typestr = "int64" then _NNS_INT64
  else if typestr = "uint64" then _NNS_UINT64
  else _NNS_END

/-- The fields of a string separated by `:` (there is always at least one). -/
def splitColon : List Char → List (List Char)
  | [] => [[]]
  | c :: cs =>
    if c = ':' then [] :: splitColon cs
    else
      match splitColon cs with
      | [] => [[c]]
      | f :: fs => (c :: f) :: fs

/-- The value of a decimal digit. -/
def digitValue (c : Char) : Option Nat :=
  if '0' ≤ c ∧ c ≤ '9' then some (c.toNat - '0'.toNat) else none

/-- The number written by a string of decimal digits, given the number
written by the digits read so far. -/
def parseDigits : List Char → Nat → Option Nat
  | [], acc => some acc
  | c :: cs, acc =>
    match digitValue c with
    | some d => parseDigits cs (10 * acc + d)
    | none => none

/-- One field of a dimension string: a non-empty string of decimal digits
whose value lies in [1, 65535]. -/
def parseAxis (field : List Char) : Option Nat :=
  match field with
  | [] => none
  | _ :: _ =>
    match parseDigits field 0 with
    | some v => if 1 ≤ v ∧ v ≤ 65535 then some v else none
    | none => none

/-- All the fields of a dimension string, or none when one is not an axis. -/
def parseAxes : List (List Char) → Option (List Nat)
  | [] => some []
  | f :: fs =>
    match parseAxis f, parseAxes fs with
    | some v, some vs => some (v :: vs)
    | _, _ => none

/-- Modelled from the spec: `get_tensor_dimension` of tensor_common is
absent; `parse("d1:d2:d3:d4")` splits on `:`, pads fewer than 4 fields with
trailing axes 1, fails on more than 4 fields and on a field that is not an
integer in [1, 65535]. The result is the number of fields (the rank the caller
asserts to be in [1, 4]) with the array filled, or 0 on failure. The spec does
not say what the array holds after a failed parse; it is left untouched here,
and the statements on rejected calls do not rely on that. -/
def get_tensor_dimension (param : String) (dim : tensor_dim) : Int × tensor_dim :=
  match parseAxes (splitColon param.toList) with
  | some vs =>
    if vs.length ≤ NNS_TENSOR_RANK_LIMIT then
      ((vs.length : Int), fun i => vs.getD i.val 1)
    else (0, dim)
  | none => (0, dim)

/-! ## GLib / GStreamer objects the element touches -/

/-- A `GValue` as the setter reads it: what `g_value_get_boolean` and
`g_value_get_string` return on it. -/
structure GValue where
  b : Bool
  s : String
  deriving DecidableEq, Repr

/-- Reads a boolean property value. -/
def g_value_get_boolean (value : GValue) : Bool := value.b

/-- Reads a string property value. -/
def g_value_get_string (value : GValue) : String := value.s

/-- A field value of a capability structure (G_TYPE_INT or G_TYPE_STRING; the
string may be NULL). -/
inductive CapsValue
  | int (n : Int)
  | string (s : Option String)
  deriving DecidableEq, Repr

/-- One structure of a `GstCaps`: media type and named fields, in order. -/
structure GstStructure where
  name : String
  fields : List (String × CapsValue)
  deriving DecidableEq, Repr

/-- A `GstCaps`: its structures; the empty list is the empty capability. -/
abbrev GstCaps := List GstStructure

/-- The call `gst_caps_new_simple`: one structure with the given fields. -/
def gst_caps_new_simple (media : String) (fields : List (String × CapsValue)) : GstCaps :=
  [{ name := media, fields := fields }]

/-- What `stat` tells of a file. -/
inductive FileKind
  | regular | directory | other
  deriving DecidableEq, Repr

/-- An existing file: its kind and whether the process may read it. -/
structure FileStat where
  kind : FileKind
  readable : Bool
  deriving DecidableEq, Repr

/-- What lies outside tensor_filter.c: the table `nnfw_support_status` of the
absent header, the file system, and the GStreamer pad and caps calls used by
`gst_tensor_filter_fix_caps` (a pad is named by `true` for the sink pad and
`false` for the src pad; `none` is a NULL `GstCaps`). -/
structure Env where
  nnfw_support_status : Int → Bool
  file : String → Option FileStat
  gst_pad_get_current_caps : Bool → Option GstCaps
  gst_caps_intersect_full : Option GstCaps → Option GstCaps → Option GstCaps
  gst_pad_set_caps : Bool → Option GstCaps → Bool

/-- The call `g_file_test (filename, G_FILE_TEST_IS_REGULAR)`: the file exists
and `stat` reports a regular file. -/
def g_file_test_is_regular (env : Env) (filename : String) : Bool :=
  match env.file filename with
  | some st => decide (st.kind = FileKind.regular)
  | none => false

/-! ## tensor_filter.c -/

/-- Property identifiers, the anonymous enum after `PROP_0`. -/
def PROP_SILENT : Nat := 1
/-- Property identifier of `framework`. -/
def PROP_FRAMEWORK : Nat := 2
/-- Property identifier of `model`. -/
def PROP_MODEL : Nat := 3
/-- Property identifier of `input`. -/
def PROP_INPUT : Nat := 4
/-- Property identifier of `inputtype`. -/
def PROP_INPUTTYPE : Nat := 5
/-- Property identifier of `output`. -/
def PROP_OUTPUT : Nat := 6
/-- Property identifier of `outputtype`. -/
def PROP_OUTPUTTYPE : Nat := 7
/-- Property identifier of `debug`. -/
def PROP_DEBUG : Nat := 8

/-- The instance structure `GstTensor_Filter` (the fields tensor_filter.c
uses; `none` is NULL). -/
structure GstTensor_Filter where
  silent : Bool
  debug : Bool
  nnfw : Int
  fw : Option GstTensor_Filter_Framework
  inputConfigured : Bool
  outputConfigured : Bool
  modelFilename : Option String
  inputDimension : tensor_dim
  inputType : tensor_type
  outputDimension : tensor_dim
  outputType : tensor_type
  privateData : Option Nat

/-- The instance memory GObject hands to the instance initialiser: zeroed
(for the two element types, the first enumerator; the initialiser overwrites
them). -/
def zeroed_instance : GstTensor_Filter :=
  { silent := false, debug := false, nnfw := 0, fw := none,
    inputConfigured := false, outputConfigured := false, modelFilename := none,
    inputDimension := fun _ => 0, inputType := _NNS_INT32,
    outputDimension := fun _ => 0, outputType := _NNS_INT32, privateData := none }

/-- The function `gst_tensor_filter_init`. -/
def gst_tensor_filter_init (filter : GstTensor_Filter) : GstTensor_Filter :=
  { filter with
    silent := false
    debug := false
    nnfw := _T_F_UNDEFINED
    inputConfigured := false
    outputConfigured := false
    modelFilename := none
    inputDimension := mkDim 1 1 1 1
    inputType := _NNS_END
    outputDimension := mkDim 1 1 1 1
    outputType := _NNS_END
    privateData := none }

/-- A fresh element: the zeroed instance after `gst_tensor_filter_init`. -/
def fresh : GstTensor_Filter := gst_tensor_filter_init zeroed_instance

/-- The loop of `gst_tensor_filter_get_rank`, with `k` iterations left at
index `i`: `none` is a failed `g_assert (dimension[i] > 0)`. -/
def gst_tensor_filter_get_rank_loop (dimension : tensor_dim) : Nat → Nat → Int → Option Int
  | 0, _, rank => some rank
  | k + 1, i, rank =>
    if h : i < 4 then
      if dimension ⟨i, h⟩ > 0 then
        gst_tensor_filter_get_rank_loop dimension k (i + 1) (if i > 1 then (i : Int) + 1 else rank)
      else none
    else some rank

/-- The function `gst_tensor_filter_get_rank`: `none` is a failed assertion. -/
def gst_tensor_filter_get_rank (dimension : tensor_dim) : Option Int :=
  gst_tensor_filter_get_rank_loop dimension NNS_TENSOR_RANK_LIMIT 0 0

/-- What a call does that is visible outside the element. -/
inductive Event
  | g_printerr (msg : String)
  | pad_set_caps (isInput : Bool) (caps : Option GstCaps)
  | element_error_negotiation
  | warn_invalid_property_id (prop_id : Nat)
  deriving DecidableEq, Repr

/-- The outcome of a call on the element: the element when the call returned
or aborted on a failed `g_assert`, and the events of the call in order. -/
structure Run where
  filter : GstTensor_Filter
  aborted : Bool
  events : List Event

/-- The call returns normally. -/
def Run.done (filter : GstTensor_Filter) (events : List Event) : Run :=
  { filter := filter, aborted := false, events := events }

/-- The call aborts on a failed `g_assert`. -/
def Run.abort (filter : GstTensor_Filter) (events : List Event) : Run :=
  { filter := filter, aborted := true, events := events }

/-- The capability `tmp` that `gst_tensor_filter_fix_caps` builds from a type,
a dimension and its rank. -/
def fix_caps_tmp (type : tensor_type) (dimension : tensor_dim) (rank : Int) : GstCaps :=
  gst_caps_new_simple "other/tensor"
    [("rank", CapsValue.int rank),
     ("type", CapsValue.string (tensor_element_typename type)),
     ("dim1", CapsValue.int (dimension 0)),
     ("dim2", CapsValue.int (dimension 1)),
     ("dim3", CapsValue.int (dimension 2)),
     ("dim4", CapsValue.int (dimension 3))]

/-- The function `gst_tensor_filter_fix_caps`, continuing a call that has
produced the events `events` so far. -/
def gst_tensor_filter_fix_caps (env : Env) (filter : GstTensor_Filter) (isInput : Bool)
    (events : List Event) : Run :=
  let type := if isInput = true then filter.inputType else filter.outputType
  let dimension := if isInput = true then filter.inputDimension else filter.outputDimension
  let caps := env.gst_pad_get_current_caps isInput
  match gst_tensor_filter_get_rank dimension with
  | none => Run.abort filter events
  | some rank =>
    let tmp := fix_caps_tmp type dimension rank
    let tmp2 := env.gst_caps_intersect_full caps (some tmp)
    if env.gst_pad_set_caps isInput tmp2 = false then
      Run.abort filter (events ++ [Event.pad_set_caps isInput tmp2, Event.element_error_negotiation])
    else
      Run.done filter (events ++ [Event.pad_set_caps isInput tmp2])

/-- The switch of `gst_tensor_filter_set_property`, continuing after the debug
line with the events `events`. -/
def gst_tensor_filter_set_property_switch (env : Env) (filter : GstTensor_Filter)
    (prop_id : Nat) (value : GValue) (events : List Event) : Run :=
  if prop_id = PROP_SILENT then
    Run.done { filter with silent := g_value_get_boolean value } events
  else if prop_id = PROP_DEBUG then
    Run.done { filter with debug := g_value_get_boolean value } events
  else if prop_id = PROP_FRAMEWORK then
    if ¬ (filter.nnfw = _T_F_UNDEFINED) then Run.abort filter events
    else
      let filter := { filter with nnfw := find_key_strv nnfw_names (g_value_get_string value) }
      if ¬ (filter.nnfw ≠ -1) then Run.abort filter events
      else if ¬ (filter.nnfw ≠ _T_F_UNDEFINED) then Run.abort filter events
      else if ¬ (env.nnfw_support_status filter.nnfw = true) then Run.abort filter events
      else
        let filter := { filter with fw := tensor_filter_supported filter.nnfw }
        if ¬ (filter.fw ≠ none) then Run.abort filter events
        else Run.done filter events
  else if prop_id = PROP_MODEL then
    if ¬ (filter.modelFilename = none) then Run.abort filter events
    else
      let filter := { filter with modelFilename := some (g_value_get_string value) }
      if ¬ (g_file_test_is_regular env (g_value_get_string value) = true) then
        Run.abort filter events
      else Run.done filter events
  else if prop_id = PROP_INPUT then
    if ¬ (filter.inputConfigured = false) then Run.abort filter events
    else
      let r := get_tensor_dimension (g_value_get_string value) filter.inputDimension
      let filter := { filter with inputDimension := r.2 }
      if ¬ (r.1 > 0 ∧ r.1 ≤ (NNS_TENSOR_RANK_LIMIT : Int)) then Run.abort filter events
      else
        let filter := { filter with inputConfigured := true }
        if filter.inputType ≠ _NNS_END then gst_tensor_filter_fix_caps env filter true events
        else Run.done filter events
  else if prop_id = PROP_OUTPUT then
    if ¬ (filter.outputConfigured = false) then Run.abort filter events
    else
      let r := get_tensor_dimension (g_value_get_string value) filter.outputDimension
      let filter := { filter with outputDimension := r.2 }
      if ¬ (r.1 > 0 ∧ r.1 ≤ (NNS_TENSOR_RANK_LIMIT : Int)) then Run.abort filter events
      else
        let filter := { filter with outputConfigured := true }
        if filter.outputType ≠ _NNS_END then gst_tensor_filter_fix_caps env filter false events
        else Run.done filter events
  else if prop_id = PROP_INPUTTYPE then
    if ¬ (filter.inputType = _NNS_END) then Run.abort filter events
    else
      let filter := { filter with inputType := get_tensor_type (g_value_get_string value) }
      if ¬ (filter.inputType ≠ _NNS_END) then Run.abort filter events
      else if filter.inputConfigured = true then gst_tensor_filter_fix_caps env filter true events
      else Run.done filter events
  else if prop_id = PROP_OUTPUTTYPE then
    if ¬ (filter.outputType = _NNS_END) then Run.abort filter events
    else
      let filter := { filter with outputType := get_tensor_type (g_value_get_string value) }
      if ¬ (filter.outputType ≠ _NNS_END) then Run.abort filter events
      else if filter.outputConfigured = true then gst_tensor_filter_fix_caps env filter false events
      else Run.done filter events
  else
    Run.done filter (events ++ [Event.warn_invalid_property_id prop_id])

/-- The function `gst_tensor_filter_set_property`. -/
def gst_tensor_filter_set_property (env : Env) (filter : GstTensor_Filter)
    (prop_id : Nat) (value : GValue) : Run :=
  gst_tensor_filter_set_property_switch env filter prop_id value
    (if filter.debug = true then
      [Event.g_printerr ("Setting property. for Prop " ++ toString prop_id ++ ".\n")]
    else [])

/-- What `gst_tensor_filter_get_property` stores into `value`. -/
inductive PropertyValue
  | boolean (b : Bool)
  | string (s : Option String)
  | array (dim : List Nat)
  deriving DecidableEq, Repr

/-- The entry `nnfw_names[nnfw]`; outside the table it is taken as NULL. -/
def nnfw_names_at (nnfw : Int) : Option String :=
  if 0 ≤ nnfw then nnfw_names.get? nnfw.toNat else none

/-- The function `gst_tensor_filter_get_property`: what is stored into `value`
(nothing for an unknown identifier). -/
def gst_tensor_filter_get_property (filter : GstTensor_Filter) (prop_id : Nat) :
    Option PropertyValue :=
  if prop_id = PROP_SILENT then some (PropertyValue.boolean filter.silent)
  else if prop_id = PROP_DEBUG then some (PropertyValue.boolean filter.debug)
  else if prop_id = PROP_FRAMEWORK then some (PropertyValue.string (nnfw_names_at filter.nnfw))
  else if prop_id = PROP_MODEL then some (PropertyValue.string filter.modelFilename)
  else if prop_id = PROP_INPUT then
    some (PropertyValue.array (List.ofFn filter.inputDimension))
  else if prop_id = PROP_OUTPUT then
    some (PropertyValue.array (List.ofFn filter.outputDimension))
  else if prop_id = PROP_INPUTTYPE then
    some (PropertyValue.string (tensor_element_typename filter.inputType))
  else if prop_id = PROP_OUTPUTTYPE then
    some (PropertyValue.string (tensor_element_typename filter.outputType))
  else none

/-- The flags a property is installed with. -/
inductive GParamFlags
  | G_PARAM_READABLE
  | G_PARAM_READWRITE
  deriving DecidableEq, Repr

/-- The properties `gst_tensor_filter_class_init` installs: identifier, name,
flags, and for the two dimension arrays the bounds of the element
specification. -/
structure ParamSpec where
  prop_id : Nat
  name : String
  flags : GParamFlags
  element_bounds : Option (Nat × Nat)
  deriving DecidableEq, Repr

/-- The calls of `g_object_class_install_property` in
`gst_tensor_filter_class_init`, in order. -/
def gst_tensor_filter_class_init : List ParamSpec :=
  [ { prop_id := PROP_SILENT, name := "silent", flags := GParamFlags.G_PARAM_READWRITE,
      element_bounds := none },
    { prop_id := PROP_FRAMEWORK, name := "framework", flags := GParamFlags.G_PARAM_READABLE,
      element_bounds := none },
    { prop_id := PROP_MODEL, name := "model", flags := GParamFlags.G_PARAM_READABLE,
      element_bounds := none },
    { prop_id := PROP_INPUT, name := "input", flags := GParamFlags.G_PARAM_READABLE,
      element_bounds := some (1, 65535) },
    { prop_id := PROP_INPUTTYPE, name := "inputtype", flags := GParamFlags.G_PARAM_READABLE,
      element_bounds := none },
    { prop_id := PROP_OUTPUT, name := "output", flags := GParamFlags.G_PARAM_READABLE,
      element_bounds := some (1, 65535) },
    { prop_id := PROP_OUTPUTTYPE, name := "outputtype", flags := GParamFlags.G_PARAM_READABLE,
      element_bounds := none },
    { prop_id := PROP_DEBUG, name := "debug", flags := GParamFlags.G_PARAM_READWRITE,
      element_bounds := none } ]

/-- A buffer: its bytes. -/
abbrev GstBuffer := List Nat

/-- The flow results the element returns. -/
inductive GstFlowReturn
  | GST_FLOW_OK
  | GST_FLOW_ERROR
  deriving DecidableEq, Repr

/-- The outcome of a processing call: the flow result, the element and the
output buffer after the call, and the buffers handed to a back-end's `invoke`
during the call. -/
structure Processing where
  ret : GstFlowReturn
  filter : GstTensor_Filter
  outbuf : GstBuffer
  invoked : List (GstTensor_Filter_Framework × GstBuffer)

/-- The function `gst_tensor_filter_transform`. -/
def gst_tensor_filter_transform (trans : GstTensor_Filter) (_inbuf outbuf : GstBuffer) :
    Processing :=
  { ret := GstFlowReturn.GST_FLOW_ERROR, filter := trans, outbuf := outbuf, invoked := [] }

/-- The function `gst_tensor_filter_transform_ip`. -/
def gst_tensor_filter_transform_ip (trans : GstTensor_Filter) (buf : GstBuffer) : Processing :=
  { ret := GstFlowReturn.GST_FLOW_ERROR, filter := trans, outbuf := buf, invoked := [] }

/-- The function `gst_tensor_filter_configure_tensor`. -/
def gst_tensor_filter_configure_tensor (_caps : Option GstCaps) (_filter : GstTensor_Filter) :
    Bool :=
  false

/-- The function `gst_tensor_filter_transform_caps`; `direction` is `true`
for the sink pad. -/
def gst_tensor_filter_transform_caps (trans : GstTensor_Filter) (_direction : Bool)
    (caps _filter : Option GstCaps) : Option GstCaps :=
  let _dummy := gst_tensor_filter_configure_tensor caps trans
  none

/-- The function `gst_tensor_filter_fixate_caps`. -/
def gst_tensor_filter_fixate_caps (_trans : GstTensor_Filter) (_direction : Bool)
    (_caps _othercaps : Option GstCaps) : Option GstCaps :=
  none

/-- The function `gst_tensor_filter_set_caps`. -/
def gst_tensor_filter_set_caps (_trans : GstTensor_Filter) (_incaps _outcaps : Option GstCaps) :
    Bool :=
  false

/-! ## tensor_transform: element types, conversions and operation chains

The transform element and its conversion kernels (`nns_orc_conv_*`) are not
among the sources; only their tests are. What follows is modelled from the
specification and from the expectations of those tests. An integer element is
held as its bit pattern (a natural number below `2 ^ width`); a floating
element is held as the rational number it denotes. -/

/-- Modelled from the spec: `size_of`, the byte width of an element type (the
table `tensor_element_size[]` of tensor_common is absent). -/
def tensor_element_size : tensor_type → Nat
  | _NNS_INT32 => 4
  | _NNS_UINT32 => 4
  | _NNS_INT16 => 2
  | _NNS_UINT16 => 2
  | _NNS_INT8 => 1
  | _NNS_UINT8 => 1
  | _NNS_FLOAT64 => 8
  | _NNS_FLOAT32 => 4
  | _NNS_INT64 => 8
  | _NNS_UINT64 => 8
  | _NNS_END => 0

/-- The integer element types. -/
def is_integer : tensor_type → Bool
  | _NNS_INT32 | _NNS_UINT32 | _NNS_INT16 | _NNS_UINT16
  | _NNS_INT8 | _NNS_UINT8 | _NNS_INT64 | _NNS_UINT64 => true
  | _ => false

/-- The signed integer element types. -/
def is_signed : tensor_type → Bool
  | _NNS_INT32 | _NNS_INT16 | _NNS_INT8 | _NNS_INT64 => true
  | _ => false

/-- The floating element types. -/
def is_float : tensor_type → Bool
  | _NNS_FLOAT32 | _NNS_FLOAT64 => true
  | _ => false

/-- The width in bits of an element type. -/
def bit_width (t : tensor_type) : Nat := 8 * tensor_element_size t

/-- The signed integer type of the same width as an integer type. -/
def signed_of : tensor_type → tensor_type
  | _NNS_UINT8 => _NNS_INT8
  | _NNS_UINT16 => _NNS_INT16
  | _NNS_UINT32 => _NNS_INT32
  | _NNS_UINT64 => _NNS_INT64
  | t => t

/-- The sign bit (bit `w - 1`) of a `w`-bit pattern. -/
def sign_bit (w bits : Nat) : Bool := decide (bits / 2 ^ (w - 1) % 2 = 1)

/-- The integer a bit pattern denotes in an integer type: two's complement
for a signed type, the pattern itself for an unsigned type. -/
def int_value (t : tensor_type) (bits : Nat) : Int :=
  if is_signed t = true ∧ sign_bit (bit_width t) bits = true then
    (bits : Int) - 2 ^ bit_width t
  else (bits : Int)

/-- The bit pattern of an integer in an integer type: its low bits. -/
def int_bits (t : tensor_type) (v : Int) : Nat := (v % 2 ^ bit_width t).toNat

/-- The integers an integer type holds. -/
def in_range (t : tensor_type) (v : Int) : Prop :=
  if is_signed t = true then
    -(2 ^ (bit_width t - 1) : Int) ≤ v ∧ v < 2 ^ (bit_width t - 1)
  else 0 ≤ v ∧ v < 2 ^ bit_width t

instance (t : tensor_type) (v : Int) : Decidable (in_range t v) := by
  unfold in_range; exact inferInstance

/-- Sign extension of a `w`-bit pattern to `w2 > w` bits: the sign bit is
copied into the new high bits. -/
def sign_extend (w w2 bits : Nat) : Nat :=
  if sign_bit w bits = true then bits + (2 ^ w2 - 2 ^ w) else bits

/-- Zero extension: the new high bits are 0. -/
def zero_extend (bits : Nat) : Nat := bits

/-- Truncation to the low `w2` bits. -/
def truncate_bits (w2 bits : Nat) : Nat := bits % 2 ^ w2

/-- Modelled from the spec: conversion between integer types, on bit
patterns ("sign-extension for widening signed sources, zero-extension for
unsigned sources, low-bits truncation when narrowing"; the same width keeps the
pattern). -/
def conv_int_to_int (src dst : tensor_type) (bits : Nat) : Nat :=
  if bit_width src < bit_width dst then
    if is_signed src = true then sign_extend (bit_width src) (bit_width dst) bits
    else zero_extend bits
  else truncate_bits (bit_width dst) bits

/-- Conversion between integer types, on the integers held. -/
def convert_int (src dst : tensor_type) (v : Int) : Int :=
  int_value dst (conv_int_to_int src dst (int_bits src v))

/-- The significand precision of a floating type (binary32: 24 bits,
binary64: 53 bits). -/
def float_precision : tensor_type → Nat
  | _NNS_FLOAT32 => 24
  | _ => 53

/-- The number of bits of `m` (0 for 0), by halving at most `fuel` times. -/
def bit_length_fuel : Nat → Nat → Nat
  | 0, _ => 0
  | fuel + 1, m => if m = 0 then 0 else bit_length_fuel fuel (m / 2) + 1

/-- The number of significant bits of a natural number. -/
def bit_length (m : Nat) : Nat := bit_length_fuel m m

/-- Rounding of an integer to `p` significant bits, to nearest, ties to
even (the IEEE 754 default; the exponent range of binary32 and binary64 holds
every 64-bit integer). -/
def round_nearest_even (p : Nat) (n : Int) : Int :=
  let m := n.natAbs
  if bit_length m ≤ p then n
  else
    let sh := bit_length m - p
    let q := m / 2 ^ sh
    let r := m % 2 ^ sh
    let half := 2 ^ (sh - 1)
    let q2 := if half < r ∨ (r = half ∧ q % 2 = 1) then q + 1 else q
    n.sign * ((q2 * 2 ^ sh : Nat) : Int)

/-- Modelled from the spec: conversion of an integer element to a floating
type. A uint32 pattern is read as a signed 32-bit integer before widening;
every other integer type widens the integer it holds. -/
def conv_int_to_float (src dst : tensor_type) (bits : Nat) : ℚ :=
  let v := if src = _NNS_UINT32 then int_value _NNS_INT32 bits else int_value src bits
  ((round_nearest_even (float_precision dst) v : Int) : ℚ)

/-- Truncation of a rational toward zero. -/
def trunc_toward_zero (x : ℚ) : Int := Int.tdiv x.num (x.den : Int)

/-- Modelled from the spec: conversion of a floating element to an integer
type truncates toward zero, and the tests `orc_conv_f32` and `orc_conv_f64`
expect for an unsigned target the signed result of the same width
reinterpreted (`(uint8_t) ((int8_t) x)`). The result is the bit pattern; `none`
where the truncated value does not fit the signed type, a case the
specification leaves open. -/
def conv_float_to_int (dst : tensor_type) (x : ℚ) : Option Nat :=
  if in_range (signed_of dst) (trunc_toward_zero x) then
    some (int_bits dst (trunc_toward_zero x))
  else none

/-- The arithmetic operators of a chain. -/
inductive Operator
  | add | mul | div
  deriving DecidableEq, Repr

/-- Modelled from the spec: `OperationStep`; the operand is held as the value
of its decimal literal. -/
inductive OperationStep
  | Typecast (target : tensor_type)
  | Arithmetic (op : Operator) (operand : ℚ)
  deriving DecidableEq

/-- An operation chain: its steps in declaration order. -/
abbrev OperationChain := List OperationStep

/-- A step is a Typecast step. -/
def OperationStep.isTypecast : OperationStep → Bool
  | OperationStep.Typecast _ => true
  | OperationStep.Arithmetic _ _ => false

/-- The state of output-type negotiation while a chain is constructed: the
output element type so far, and whether a Typecast step has fixed it. -/
structure OutputNegotiation where
  out_type : tensor_type
  fixed : Bool
  deriving DecidableEq, Repr

/-- Modelled from the spec: one step of chain construction. The output type
"is updated only by the first Typecast step encountered; subsequent Typecast
steps are parsed but do not alter the output element type". -/
def negotiate_step (st : OutputNegotiation) : OperationStep → OutputNegotiation
  | OperationStep.Typecast target =>
    if st.fixed = true then st else { out_type := target, fixed := true }
  | OperationStep.Arithmetic _ _ => st

/-- Modelled from the spec: the output element type of a transform with the
given input type and chain, fixed at chain construction by scanning the steps
in order from the configured input type. -/
def output_type (in_type : tensor_type) (chain : OperationChain) : tensor_type :=
  (chain.foldl negotiate_step { out_type := in_type, fixed := false }).out_type

/-- Modelled from the spec: the rank rule of the data model, "the 1-based
index of the last axis whose value is greater than 1, with a floor of 1". -/
def rank_of_spec (dimension : tensor_dim) : Int :=
  if dimension 3 > 1 then 4
  else if dimension 2 > 1 then 3
  else if dimension 1 > 1 then 2
  else 1

/-! ## Predicates used by the statements -/

/-- The six write-once properties of the filter element. -/
def write_once (prop_id : Nat) : Prop :=
  prop_id = PROP_FRAMEWORK ∨ prop_id = PROP_MODEL ∨ prop_id = PROP_INPUT ∨
  prop_id = PROP_INPUTTYPE ∨ prop_id = PROP_OUTPUT ∨ prop_id = PROP_OUTPUTTYPE

/-- The element's fields show the write-once property as set: the field the
setter's first assertion tests no longer has its initial value. -/
def already_set (filter : GstTensor_Filter) (prop_id : Nat) : Prop :=
  (prop_id = PROP_FRAMEWORK ∧ filter.nnfw ≠ _T_F_UNDEFINED) ∨
  (prop_id = PROP_MODEL ∧ filter.modelFilename ≠ none) ∨
  (prop_id = PROP_INPUT ∧ filter.inputConfigured = true) ∨
  (prop_id = PROP_INPUTTYPE ∧ filter.inputType ≠ _NNS_END) ∨
  (prop_id = PROP_OUTPUT ∧ filter.outputConfigured = true) ∨
  (prop_id = PROP_OUTPUTTYPE ∧ filter.outputType ≠ _NNS_END)

/-- The element states in which the write-once property `prop_id` has already
been set: the states right after an accepted set of it, and those reached from
such a state by further accepted `set_property` calls. -/
inductive HasBeenSet (env : Env) (prop_id : Nat) : GstTensor_Filter → Prop
  | set (filter : GstTensor_Filter) (value : GValue) :
      write_once prop_id →
      (gst_tensor_filter_set_property env filter prop_id value).aborted = false →
      HasBeenSet env prop_id (gst_tensor_filter_set_property env filter prop_id value).filter
  | later (filter : GstTensor_Filter) (other : Nat) (value : GValue) :
      HasBeenSet env prop_id filter →
      (gst_tensor_filter_set_property env filter other value).aborted = false →
      HasBeenSet env prop_id (gst_tensor_filter_set_property env filter other value).filter

/-- An environment for examples: `model.tflite` is a regular file that the
process may not read, `models` is a directory, nothing else exists; only the
tensorflow-lite back-end is marked supported; the pads hold no capability and
accept any non-NULL one. -/
def example_env : Env :=
  { nnfw_support_status := fun nnfw => decide (nnfw = _T_F_TENSORFLOW_LITE)
    file := fun path =>
      if path = "model.tflite" then some { kind := FileKind.regular, readable := false }
      else if path = "models" then some { kind := FileKind.directory, readable := true }
      else none
    gst_pad_get_current_caps := fun _ => none
    gst_caps_intersect_full := fun _ tmp => tmp
    gst_pad_set_caps := fun _ caps => caps.isSome }

/-- A sequence of `set_property` calls made in order on an element, every
one accepted: the element after the last call and the events of all the calls;
`none` as soon as one call aborts. -/
def set_properties (env : Env) :
    GstTensor_Filter → List (Nat × GValue) → Option (GstTensor_Filter × List Event)
  | filter, [] => some (filter, [])
  | filter, call :: rest =>
    if (gst_tensor_filter_set_property env filter call.1 call.2).aborted = true then none
    else
      match set_properties env
          (gst_tensor_filter_set_property env filter call.1 call.2).filter rest with
      | some (final, events) =>
        some (final, (gst_tensor_filter_set_property env filter call.1 call.2).events ++ events)
      | none => none

/-- The property identifiers of a sequence of calls. -/
def prop_ids (calls : List (Nat × GValue)) : List Nat := calls.map Prod.fst

/-- Framework, model path, and the type and the dimension of both directions
are all set. -/
def all_configured (filter : GstTensor_Filter) : Prop :=
  filter.nnfw ≠ _T_F_UNDEFINED ∧ filter.modelFilename ≠ none ∧
  filter.inputConfigured = true ∧ filter.inputType ≠ _NNS_END ∧
  filter.outputConfigured = true ∧ filter.outputType ≠ _NNS_END

instance (filter : GstTensor_Filter) : Decidable (all_configured filter) := by
  unfold all_configured; exact inferInstance

/-- Both the element type and the dimension of a direction (`true` for
input) are set. -/
def both_set (filter : GstTensor_Filter) (isInput : Bool) : Prop :=
  if isInput = true then filter.inputConfigured = true ∧ filter.inputType ≠ _NNS_END
  else filter.outputConfigured = true ∧ filter.outputType ≠ _NNS_END

instance (filter : GstTensor_Filter) (isInput : Bool) : Decidable (both_set filter isInput) := by
  unfold both_set; exact inferInstance

/-- The number a string of decimal digits writes. -/
def decimal_value (field : List Char) : Nat :=
  field.foldl (fun acc c => 10 * acc + (c.toNat - '0'.toNat)) 0

/-- A field is a decimal integer: a non-empty string of the digits 0 to 9. -/
def is_decimal (field : List Char) : Prop :=
  field ≠ [] ∧ ∀ c ∈ field, '0' ≤ c ∧ c ≤ '9'

instance (field : List Char) : Decidable (is_decimal field) := by
  unfold is_decimal; exact inferInstance

/-- The string consists of 1 to 4 colon-separated fields, each a decimal
integer in [1, 65535]. -/
def well_formed_dimension (s : String) : Prop :=
  1 ≤ (splitColon s.toList).length ∧ (splitColon s.toList).length ≤ 4 ∧
  ∀ field ∈ splitColon s.toList,
    is_decimal field ∧ 1 ≤ decimal_value field ∧ decimal_value field ≤ 65535

instance (s : String) : Decidable (well_formed_dimension s) := by
  unfold well_formed_dimension; exact inferInstance

/-- The dimension a well-formed string writes: its fields in order, innermost
first, the remaining axes 1. -/
def dimension_of_string (s : String) : tensor_dim :=
  fun i => ((splitColon s.toList).map decimal_value).getD i.val 1

/-- The ten canonical element type names. -/
def canonical_type_names : List String :=
  ["int8", "uint8", "int16", "uint16", "int32", "uint32", "int64", "uint64",
   "float32", "float64"]

/-- An environment whose pad calls follow GStreamer: the sink and src pads
hold the given capabilities (`none` before any was set); the intersection with
a NULL capability is NULL, and otherwise keeps the structures of the second
capability whose media type the first one has; `gst_pad_set_caps` accepts only
a fixed capability, here one with exactly one structure. Files and supported
back-ends are those of `example_env`. -/
def gst_like_env (sink src : Option GstCaps) : Env :=
  { nnfw_support_status := example_env.nnfw_support_status
    file := example_env.file
    gst_pad_get_current_caps := fun isInput => if isInput = true then sink else src
    gst_caps_intersect_full := fun caps tmp =>
      match caps, tmp with
      | some c, some t => some (t.filter (fun st => c.any (fun held => held.name == st.name)))
      | _, _ => none
    gst_pad_set_caps := fun _ caps =>
      match caps with
      | some [_] => true
      | _ => false }

/-- The calls that configure an element completely. -/
def example_calls : List (Nat × GValue) :=
  [(PROP_FRAMEWORK, { b := false, s := "tensorflow-lite" }),
   (PROP_MODEL, { b := false, s := "model.tflite" }),
   (PROP_INPUTTYPE, { b := false, s := "uint8" }),
   (PROP_INPUT, { b := false, s := "3:224:224" }),
   (PROP_OUTPUT, { b := false, s := "1000" }),
   (PROP_OUTPUTTYPE, { b := false, s := "float32" })]

/-- The framework identifier and descriptor of an element agree with the
tables: the identifier is `_T_F_UNDEFINED`, or it is `_T_F_CUSTOM` or
`_T_F_TENSORFLOW_LITE` and the descriptor is the table's entry for it. -/
def framework_consistent (filter : GstTensor_Filter) : Prop :=
  filter.nnfw = _T_F_UNDEFINED ∨
  ((filter.nnfw = _T_F_CUSTOM ∨ filter.nnfw = _T_F_TENSORFLOW_LITE) ∧
    filter.fw = tensor_filter_supported filter.nnfw ∧ filter.fw ≠ none)

/-- The element `after` differs from `before` at most in the fields of the
property `prop_id`: `nnfw` and `fw` for the framework, `modelFilename` for the
model, the dimension array and the configured flag for a dimension, the type
field for a type, the boolean for silent and debug; no property has
`privateData`. -/
def differs_only_in (prop_id : Nat) (before after : GstTensor_Filter) : Prop :=
  (prop_id ≠ PROP_FRAMEWORK → after.nnfw = before.nnfw ∧ after.fw = before.fw) ∧
  (prop_id ≠ PROP_MODEL → after.modelFilename = before.modelFilename) ∧
  (prop_id ≠ PROP_INPUT →
    after.inputDimension = before.inputDimension ∧
    after.inputConfigured = before.inputConfigured) ∧
  (prop_id ≠ PROP_INPUTTYPE → after.inputType = before.inputType) ∧
  (prop_id ≠ PROP_OUTPUT →
    after.outputDimension = before.outputDimension ∧
    after.outputConfigured = before.outputConfigured) ∧
  (prop_id ≠ PROP_OUTPUTTYPE → after.outputType = before.outputType) ∧
  (prop_id ≠ PROP_SILENT → after.silent = before.silent) ∧
  (prop_id ≠ PROP_DEBUG → after.debug = before.debug) ∧
  after.privateData = before.privateData

/-- The flags allow writing the property (G_PARAM_WRITABLE is part of
G_PARAM_READWRITE only). -/
def is_writable : GParamFlags → Bool
  | GParamFlags.G_PARAM_READABLE => false
  | GParamFlags.G_PARAM_READWRITE => true

/-- The GObject call `g_object_set_property` on the element: the property is
looked up by name among those the class installed; a property that is not
installed or not writable is refused with a warning and the class setter is
not called (`none`); otherwise `gst_tensor_filter_set_property` is called with
the property's identifier. -/
def g_object_set_property (env : Env) (filter : GstTensor_Filter) (name : String)
    (value : GValue) : Option Run :=
  match gst_tensor_filter_class_init.find? (fun pspec => pspec.name == name) with
  | none => none
  | some pspec =>
    if is_writable pspec.flags = true then
      some (gst_tensor_filter_set_property env filter pspec.prop_id value)
    else none

/-- The names of the properties of the configuration surface. -/
def property_names : List String :=
  ["framework", "model", "input", "inputtype", "output", "outputtype", "silent", "debug"]

/-- Modelled from the spec: an arithmetic step on an element of an integer
working type, "in the working type's natural arithmetic (integer ops
wrap/truncate per native semantics)" and stored back at the working width: the
operand is converted to the working type, the operation is that of the type
(division truncates toward zero), and the low bits of the result are kept.
`none` where the operand does not fit the type or is a zero divisor. -/
def arith_int (t : tensor_type) (op : Operator) (operand : ℚ) (bits : Nat) : Option Nat :=
  match conv_float_to_int t operand with
  | none => none
  | some c =>
    match op with
    | Operator.add => some (int_bits t (int_value t bits + int_value t c))
    | Operator.mul => some (int_bits t (int_value t bits * int_value t c))
    | Operator.div =>
      if int_value t c = 0 then none
      else some (int_bits t (Int.tdiv (int_value t bits) (int_value t c)))

/-- Modelled from the spec: one step of the scalar executor on one element
whose working type is an integer type; the element is its working type (with
the flag of `negotiate_step`) and its bit pattern. The first Typecast step
converts the element; a later Typecast step changes nothing; an Arithmetic
step works in the working type. `none` where a floating type is involved,
which this fragment leaves out. -/
def exec_step (w : OutputNegotiation × Nat) (step : OperationStep) :
    Option (OutputNegotiation × Nat) :=
  match step with
  | OperationStep.Typecast target =>
    if w.1.fixed = true then some w
    else if is_integer w.1.out_type = true ∧ is_integer target = true then
      some (negotiate_step w.1 step, conv_int_to_int w.1.out_type target w.2)
    else none
  | OperationStep.Arithmetic op operand =>
    if is_integer w.1.out_type = true then
      (arith_int w.1.out_type op operand w.2).map (fun bits => (w.1, bits))
    else none

/-- The steps of a chain applied in declaration order to one element. -/
def exec_steps : OperationChain → OutputNegotiation × Nat → Option (OutputNegotiation × Nat)
  | [], w => some w
  | step :: rest, w =>
    match exec_step w step with
    | some w2 => exec_steps rest w2
    | none => none

/-- Modelled from the spec: the scalar executor on one element of an integer
input type: the element type and the bit pattern of the output element. -/
def exec_chain (in_type : tensor_type) (chain : OperationChain) (bits : Nat) :
    Option (tensor_type × Nat) :=
  (exec_steps chain ({ out_type := in_type, fixed := false }, bits)).map
    (fun w => (w.1.out_type, w.2))

/-- The chain typecast:int32, mul:2, div:2, add:-1 of test arithmetic_5. -/
def chain_arithmetic_5 : OperationChain :=
  [OperationStep.Typecast _NNS_INT32, OperationStep.Arithmetic Operator.mul 2,
   OperationStep.Arithmetic Operator.div 2, OperationStep.Arithmetic Operator.add (-1)]

theorem fix_caps_filter (env : Env) (filter : GstTensor_Filter) (isInput : Bool)
    (events : List Event) :
    (gst_tensor_filter_fix_caps env filter isInput events).filter = filter := by
  unfold gst_tensor_filter_fix_caps
  simp only []
  split
  · rfl
  · split_ifs <;> rfl

theorem switch_silent (env : Env) (filter : GstTensor_Filter) (value : GValue)
    (events : List Event) :
    gst_tensor_filter_set_property_switch env filter PROP_SILENT value events =
      Run.done { filter with silent := value.b } events := rfl

theorem switch_debug (env : Env) (filter : GstTensor_Filter) (value : GValue)
    (events : List Event) :
    gst_tensor_filter_set_property_switch env filter PROP_DEBUG value events =
      Run.done { filter with debug := value.b } events := rfl

theorem switch_framework (env : Env) (filter : GstTensor_Filter) (value : GValue)
    (events : List Event) :
    gst_tensor_filter_set_property_switch env filter PROP_FRAMEWORK value events =
      if ¬ (filter.nnfw = _T_F_UNDEFINED) then Run.abort filter events
      else if ¬ (find_key_strv nnfw_names value.s ≠ -1) then
        Run.abort { filter with nnfw := find_key_strv nnfw_names value.s } events
      else if ¬ (find_key_strv nnfw_names value.s ≠ _T_F_UNDEFINED) then
        Run.abort { filter with nnfw := find_key_strv nnfw_names value.s } events
      else if ¬ (env.nnfw_support_status (find_key_strv nnfw_names value.s) = true) then
        Run.abort { filter with nnfw := find_key_strv nnfw_names value.s } events
      else if ¬ (tensor_filter_supported (find_key_strv nnfw_names value.s) ≠ none) then
        Run.abort { filter with nnfw := find_key_strv nnfw_names value.s,
                                fw := tensor_filter_supported (find_key_strv nnfw_names value.s) }
          events
      else
        Run.done { filter with nnfw := find_key_strv nnfw_names value.s,
                               fw := tensor_filter_supported (find_key_strv nnfw_names value.s) }
          events := rfl

theorem switch_model (env : Env) (filter : GstTensor_Filter) (value : GValue)
    (events : List Event) :
    gst_tensor_filter_set_property_switch env filter PROP_MODEL value events =
      if ¬ (filter.modelFilename = none) then Run.abort filter events
      else if ¬ (g_file_test_is_regular env value.s = true) then
        Run.abort { filter with modelFilename := some value.s } events
      else Run.done { filter with modelFilename := some value.s } events := rfl

theorem switch_input (env : Env) (filter : GstTensor_Filter) (value : GValue)
    (events : List Event) :
    gst_tensor_filter_set_property_switch env filter PROP_INPUT value events =
      if ¬ (filter.inputConfigured = false) then Run.abort filter events
      else if ¬ ((get_tensor_dimension value.s filter.inputDimension).1 > 0 ∧
          (get_tensor_dimension value.s filter.inputDimension).1 ≤ (NNS_TENSOR_RANK_LIMIT : Int)) then
        Run.abort { filter with
          inputDimension := (get_tensor_dimension value.s filter.inputDimension).2 } events
      else if filter.inputType ≠ _NNS_END then
        gst_tensor_filter_fix_caps env { filter with
          inputDimension := (get_tensor_dimension value.s filter.inputDimension).2,
          inputConfigured := true } true events
      else
        Run.done { filter with
          inputDimension := (get_tensor_dimension value.s filter.inputDimension).2,
          inputConfigured := true } events := rfl

theorem switch_output (env : Env) (filter : GstTensor_Filter) (value : GValue)
    (events : List Event) :
    gst_tensor_filter_set_property_switch env filter PROP_OUTPUT value events =
      if ¬ (filter.outputConfigured = false) then Run.abort filter events
      else if ¬ ((get_tensor_dimension value.s filter.outputDimension).1 > 0 ∧
          (get_tensor_dimension value.s filter.outputDimension).1 ≤ (NNS_TENSOR_RANK_LIMIT : Int)) then
        Run.abort { filter with
          outputDimension := (get_tensor_dimension value.s filter.outputDimension).2 } events
      else if filter.outputType ≠ _NNS_END then
        gst_tensor_filter_fix_caps env { filter with
          outputDimension := (get_tensor_dimension value.s filter.outputDimension).2,
          outputConfigured := true } false events
      else
        Run.done { filter with
          outputDimension := (get_tensor_dimension value.s filter.outputDimension).2,
          outputConfigured := true } events := rfl

theorem switch_inputtype (env : Env) (filter : GstTensor_Filter) (value : GValue)
    (events : List Event) :
    gst_tensor_filter_set_property_switch env filter PROP_INPUTTYPE value events =
      if ¬ (filter.inputType = _NNS_END) then Run.abort filter events
      else if ¬ (get_tensor_type value.s ≠ _NNS_END) then
        Run.abort { filter with inputType := get_tensor_type value.s } events
      else if filter.inputConfigured = true then
        gst_tensor_filter_fix_caps env { filter with inputType := get_tensor_type value.s }
          true events
      else Run.done { filter with inputType := get_tensor_type value.s } events := rfl

theorem switch_outputtype (env : Env) (filter : GstTensor_Filter) (value : GValue)
    (events : List Event) :
    gst_tensor_filter_set_property_switch env filter PROP_OUTPUTTYPE value events =
      if ¬ (filter.outputType = _NNS_END) then Run.abort filter events
      else if ¬ (get_tensor_type value.s ≠ _NNS_END) then
        Run.abort { filter with outputType := get_tensor_type value.s } events
      else if filter.outputConfigured = true then
        gst_tensor_filter_fix_caps env { filter with outputType := get_tensor_type value.s }
          false events
      else Run.done { filter with outputType := get_tensor_type value.s } events := rfl

theorem switch_default (env : Env) (filter : GstTensor_Filter) (prop_id : Nat) (value : GValue)
    (events : List Event)
    (h : ¬ (prop_id = PROP_SILENT ∨ prop_id = PROP_DEBUG ∨ prop_id = PROP_FRAMEWORK ∨
      prop_id = PROP_MODEL ∨ prop_id = PROP_INPUT ∨ prop_id = PROP_OUTPUT ∨
      prop_id = PROP_INPUTTYPE ∨ prop_id = PROP_OUTPUTTYPE)) :
    gst_tensor_filter_set_property_switch env filter prop_id value events =
      Run.done filter (events ++ [Event.warn_invalid_property_id prop_id]) := by
  simp only [not_or] at h
  obtain ⟨h1, h2, h3, h4, h5, h6, h7, h8⟩ := h
  simp only [gst_tensor_filter_set_property_switch, if_neg h1, if_neg h2, if_neg h3, if_neg h4,
    if_neg h5, if_neg h6, if_neg h7, if_neg h8]

theorem already_set_rejected (env : Env) (filter : GstTensor_Filter) (prop_id : Nat)
    (value : GValue) (h : already_set filter prop_id) :
    (gst_tensor_filter_set_property env filter prop_id value).aborted = true ∧
    (gst_tensor_filter_set_property env filter prop_id value).filter = filter := by
  unfold gst_tensor_filter_set_property
  rcases h with ⟨rfl, h⟩ | ⟨rfl, h⟩ | ⟨rfl, h⟩ | ⟨rfl, h⟩ | ⟨rfl, h⟩ | ⟨rfl, h⟩
  · rw [switch_framework, if_pos h]; exact ⟨rfl, rfl⟩
  · rw [switch_model, if_pos h]; exact ⟨rfl, rfl⟩
  · rw [switch_input, if_pos (by simp [h])]; exact ⟨rfl, rfl⟩
  · rw [switch_inputtype, if_pos h]; exact ⟨rfl, rfl⟩
  · rw [switch_output, if_pos (by simp [h])]; exact ⟨rfl, rfl⟩
  · rw [switch_outputtype, if_pos h]; exact ⟨rfl, rfl⟩

theorem accepted_set_already_set (env : Env) (filter : GstTensor_Filter) (prop_id : Nat)
    (value : GValue) (hw : write_once prop_id)
    (hok : (gst_tensor_filter_set_property env filter prop_id value).aborted = false) :
    already_set (gst_tensor_filter_set_property env filter prop_id value).filter prop_id := by
  unfold gst_tensor_filter_set_property at *
  unfold already_set
  rcases hw with rfl | rfl | rfl | rfl | rfl | rfl
  · rw [switch_framework] at *
    split_ifs at * <;> simp_all [Run.abort, Run.done]
  · rw [switch_model] at *
    split_ifs at * <;> simp_all [Run.abort, Run.done]
  · rw [switch_input] at *
    split_ifs at * <;> simp_all [Run.abort, Run.done, fix_caps_filter]
  · rw [switch_inputtype] at *
    split_ifs at * <;> simp_all [Run.abort, Run.done, fix_caps_filter]
  · rw [switch_output] at *
    split_ifs at * <;> simp_all [Run.abort, Run.done, fix_caps_filter]
  · rw [switch_outputtype] at *
    split_ifs at * <;> simp_all [Run.abort, Run.done, fix_caps_filter]

theorem accepted_keeps_set (env : Env) (filter : GstTensor_Filter) (other : Nat)
    (value : GValue) (events : List Event)
    (hok : (gst_tensor_filter_set_property_switch env filter other value events).aborted = false) :
    (filter.nnfw ≠ _T_F_UNDEFINED →
      (gst_tensor_filter_set_property_switch env filter other value events).filter.nnfw ≠
        _T_F_UNDEFINED) ∧
    (filter.modelFilename ≠ none →
      (gst_tensor_filter_set_property_switch env filter other value events).filter.modelFilename ≠
        none) ∧
    (filter.inputConfigured = true →
      (gst_tensor_filter_set_property_switch env filter other value events).filter.inputConfigured =
        true) ∧
    (filter.inputType ≠ _NNS_END →
      (gst_tensor_filter_set_property_switch env filter other value events).filter.inputType ≠
        _NNS_END) ∧
    (filter.outputConfigured = true →
      (gst_tensor_filter_set_property_switch env filter other value events).filter.outputConfigured =
        true) ∧
    (filter.outputType ≠ _NNS_END →
      (gst_tensor_filter_set_property_switch env filter other value events).filter.outputType ≠
        _NNS_END) := by
  by_cases hq : (other = PROP_SILENT ∨ other = PROP_DEBUG ∨ other = PROP_FRAMEWORK ∨
      other = PROP_MODEL ∨ other = PROP_INPUT ∨ other = PROP_OUTPUT ∨
      other = PROP_INPUTTYPE ∨ other = PROP_OUTPUTTYPE)
  · rcases hq with rfl | rfl | rfl | rfl | rfl | rfl | rfl | rfl
    · rw [switch_silent]; exact ⟨id, id, id, id, id, id⟩
    · rw [switch_debug]; exact ⟨id, id, id, id, id, id⟩
    · rw [switch_framework] at hok ⊢
      split_ifs at hok ⊢ <;>
        first
        | simp [Run.abort] at hok
        | (simp only [Run.done]
           refine ⟨?_, ?_, ?_, ?_, ?_, ?_⟩ <;> intro h <;> first | exact h | trivial)
    · rw [switch_model] at hok ⊢
      split_ifs at hok ⊢ <;>
        first
        | simp [Run.abort] at hok
        | (simp only [Run.done]
           refine ⟨?_, ?_, ?_, ?_, ?_, ?_⟩ <;> intro h <;> first | exact h | trivial)
    · rw [switch_input] at hok ⊢
      split_ifs at hok ⊢ <;>
        first
        | simp [Run.abort] at hok
        | (simp only [Run.done, fix_caps_filter]
           refine ⟨?_, ?_, ?_, ?_, ?_, ?_⟩ <;> intro h <;> first | exact h | trivial)
    · rw [switch_output] at hok ⊢
      split_ifs at hok ⊢ <;>
        first
        | simp [Run.abort] at hok
        | (simp only [Run.done, fix_caps_filter]
           refine ⟨?_, ?_, ?_, ?_, ?_, ?_⟩ <;> intro h <;> first | exact h | trivial)
    · rw [switch_inputtype] at hok ⊢
      split_ifs at hok ⊢ <;>
        first
        | simp [Run.abort] at hok
        | (simp only [Run.done, fix_caps_filter]
           refine ⟨?_, ?_, ?_, ?_, ?_, ?_⟩ <;> intro h <;> first | exact h | trivial)
    · rw [switch_outputtype] at hok ⊢
      split_ifs at hok ⊢ <;>
        first
        | simp [Run.abort] at hok
        | (simp only [Run.done, fix_caps_filter]
           refine ⟨?_, ?_, ?_, ?_, ?_, ?_⟩ <;> intro h <;> first | exact h | trivial)
  · rw [switch_default env filter other value _ hq]; exact ⟨id, id, id, id, id, id⟩

theorem accepted_preserves_already_set (env : Env) (filter : GstTensor_Filter)
    (prop_id other : Nat) (value : GValue) (h : already_set filter prop_id)
    (hok : (gst_tensor_filter_set_property env filter other value).aborted = false) :
    already_set (gst_tensor_filter_set_property env filter other value).filter prop_id := by
  unfold gst_tensor_filter_set_property at *
  obtain ⟨k1, k2, k3, k4, k5, k6⟩ := accepted_keeps_set env filter other value _ hok
  rcases h with ⟨hp, h⟩ | ⟨hp, h⟩ | ⟨hp, h⟩ | ⟨hp, h⟩ | ⟨hp, h⟩ | ⟨hp, h⟩
  · exact Or.inl ⟨hp, k1 h⟩
  · exact Or.inr (Or.inl ⟨hp, k2 h⟩)
  · exact Or.inr (Or.inr (Or.inl ⟨hp, k3 h⟩))
  · exact Or.inr (Or.inr (Or.inr (Or.inl ⟨hp, k4 h⟩)))
  · exact Or.inr (Or.inr (Or.inr (Or.inr (Or.inl ⟨hp, k5 h⟩))))
  · exact Or.inr (Or.inr (Or.inr (Or.inr (Or.inr ⟨hp, k6 h⟩))))

theorem hasBeenSet_already_set (env : Env) (prop_id : Nat) (filter : GstTensor_Filter)
    (h : HasBeenSet env prop_id filter) : already_set filter prop_id := by
  induction h with
  | set filter value hw hok => exact accepted_set_already_set env filter prop_id value hw hok
  | later filter other value _ hok ih =>
    exact accepted_preserves_already_set env filter prop_id other value ih hok

theorem find_key_strv_absent (strv : List String) (key : String) (h : key ∉ strv) :
    find_key_strv strv key = -1 := by
  induction strv with
  | nil => rfl
  | cons s rest ih =>
    have hs : ¬ s = key := fun e => h (by simp [e])
    have hr : key ∉ rest := fun e => h (by simp [e])
    simp [find_key_strv, hs, ih hr]

/-! ## Helper facts about the conversions -/

theorem bit_length_fuel_le (fuel : Nat) : ∀ (m k : Nat), m < 2 ^ k → bit_length_fuel fuel m ≤ k := by
  induction fuel with
  | zero => intro m k _; exact Nat.zero_le _
  | succ fuel ih =>
    intro m k hm
    unfold bit_length_fuel
    split_ifs with h0
    · exact Nat.zero_le _
    · cases k with
      | zero => exact absurd hm (by simp; exact h0)
      | succ k =>
        have : m / 2 < 2 ^ k := by
          rw [Nat.pow_succ] at hm
          omega
        exact Nat.succ_le_succ (ih (m / 2) k this)

theorem bit_length_le (m k : Nat) (h : m < 2 ^ k) : bit_length m ≤ k :=
  bit_length_fuel_le m m k h

theorem pow_bit_length_fuel_le (fuel : Nat) :
    ∀ (m : Nat), m ≠ 0 → m ≤ fuel → 2 ^ (bit_length_fuel fuel m - 1) ≤ m := by
  induction fuel with
  | zero => intro m h0 hm; omega
  | succ fuel ih =>
    intro m h0 hm
    unfold bit_length_fuel
    rw [if_neg h0, Nat.add_sub_cancel]
    by_cases h2 : m / 2 = 0
    · rw [h2]
      have : bit_length_fuel fuel 0 = 0 := by cases fuel <;> simp [bit_length_fuel]
      rw [this]; simp; omega
    · have hle : m / 2 ≤ fuel := by omega
      have h := ih (m / 2) h2 hle
      have hpos : 1 ≤ bit_length_fuel fuel (m / 2) := by
        cases fuel with
        | zero => omega
        | succ f => unfold bit_length_fuel; rw [if_neg h2]; omega
      have : 2 ^ bit_length_fuel fuel (m / 2) = 2 * 2 ^ (bit_length_fuel fuel (m / 2) - 1) := by
        conv_lhs => rw [← Nat.sub_add_cancel hpos]
        rw [Nat.pow_succ, Nat.mul_comm]
      rw [this]; omega

theorem pow_bit_length_le (m : Nat) (h : m ≠ 0) : 2 ^ (bit_length m - 1) ≤ m :=
  pow_bit_length_fuel_le m m h (Nat.le_refl m)

theorem round_nearest_even_exact (p : Nat) (n : Int) (h : n.natAbs < 2 ^ p) :
    round_nearest_even p n = n := by
  unfold round_nearest_even
  simp only [if_pos (bit_length_le _ _ h)]

theorem round_nearest_even_neg (p : Nat) (n : Int) (hp : 1 ≤ p) (hn : n < 0) :
    round_nearest_even p n < 0 := by
  unfold round_nearest_even
  simp only []
  split_ifs with h1 h2
  · exact hn
  · have hm : n.natAbs ≠ 0 := by omega
    have hle := pow_bit_length_le n.natAbs hm
    have hsh : 2 ^ (bit_length n.natAbs - p) ≤ 2 ^ (bit_length n.natAbs - 1) :=
      Nat.pow_le_pow_right (by norm_num) (by omega)
    have hpos : 0 < 2 ^ (bit_length n.natAbs - p) := Nat.pow_pos (by norm_num)
    have hq : 0 < (n.natAbs / 2 ^ (bit_length n.natAbs - p) + 1) *
        2 ^ (bit_length n.natAbs - p) := Nat.mul_pos (Nat.succ_pos _) hpos
    rw [Int.sign_eq_neg_one_of_neg hn]
    have : (0 : Int) < (((n.natAbs / 2 ^ (bit_length n.natAbs - p) + 1) *
        2 ^ (bit_length n.natAbs - p) : Nat) : Int) := by exact_mod_cast hq
    linarith
  · have hm : n.natAbs ≠ 0 := by omega
    have hle := pow_bit_length_le n.natAbs hm
    have hsh : 2 ^ (bit_length n.natAbs - p) ≤ 2 ^ (bit_length n.natAbs - 1) :=
      Nat.pow_le_pow_right (by norm_num) (by omega)
    have hpos : 0 < 2 ^ (bit_length n.natAbs - p) := Nat.pow_pos (by norm_num)
    have hq1 : 0 < n.natAbs / 2 ^ (bit_length n.natAbs - p) :=
      Nat.div_pos (le_trans hsh hle) hpos
    have hq : 0 < n.natAbs / 2 ^ (bit_length n.natAbs - p) *
        2 ^ (bit_length n.natAbs - p) := Nat.mul_pos hq1 hpos
    rw [Int.sign_eq_neg_one_of_neg hn]
    have : (0 : Int) < ((n.natAbs / 2 ^ (bit_length n.natAbs - p) *
        2 ^ (bit_length n.natAbs - p) : Nat) : Int) := by exact_mod_cast hq
    linarith

theorem int_value_int32 (v : Nat) (hv : v < 2 ^ 32) :
    int_value _NNS_INT32 v = if 2 ^ 31 ≤ v then (v : Int) - 2 ^ 32 else (v : Int) := by
  simp only [int_value, is_signed, bit_width, tensor_element_size, sign_bit, Nat.reduceMul,
    Nat.reduceSub, Nat.reducePow, decide_eq_true_eq, true_and]
  norm_num at hv
  split_ifs <;> omega

/-! ## Claims on tensor_filter.c -/

/-- C1: in every element state in which one of the six write-once properties
(framework, model, input dimension, input type, output dimension, output type)
has already been set, a further `set_property` call on that property is
rejected (it aborts on the setter's first assertion) and the element, the
stored value included, is exactly as before the call. -/
theorem write_once_reset_rejected (env : Env) (prop_id : Nat) (filter : GstTensor_Filter)
    (value : GValue) (h : HasBeenSet env prop_id filter) :
    (gst_tensor_filter_set_property env filter prop_id value).aborted = true ∧
    (gst_tensor_filter_set_property env filter prop_id value).filter = filter :=
  already_set_rejected env filter prop_id value (hasBeenSet_already_set env prop_id filter h)

/-- C1 at a concrete input: on a fresh element the model is set to
`model.tflite`; a second set of the model is rejected and the first value is
still stored. -/
theorem write_once_reset_rejected_witness :
    HasBeenSet example_env PROP_MODEL
      (gst_tensor_filter_set_property example_env fresh PROP_MODEL
        { b := false, s := "model.tflite" }).filter ∧
    (gst_tensor_filter_set_property example_env fresh PROP_MODEL
        { b := false, s := "model.tflite" }).filter.modelFilename = some "model.tflite" ∧
    (gst_tensor_filter_set_property example_env
        (gst_tensor_filter_set_property example_env fresh PROP_MODEL
          { b := false, s := "model.tflite" }).filter
        PROP_MODEL { b := false, s := "other.tflite" }).aborted = true ∧
    (gst_tensor_filter_set_property example_env
        (gst_tensor_filter_set_property example_env fresh PROP_MODEL
          { b := false, s := "model.tflite" }).filter
        PROP_MODEL { b := false, s := "other.tflite" }).filter =
      (gst_tensor_filter_set_property example_env fresh PROP_MODEL
        { b := false, s := "model.tflite" }).filter :=
  ⟨HasBeenSet.set fresh _ (Or.inr (Or.inl rfl)) (by decide), by decide,
    write_once_reset_rejected example_env PROP_MODEL _ { b := false, s := "other.tflite" }
      (HasBeenSet.set fresh _ (Or.inr (Or.inl rfl)) (by decide))⟩

/-- C2: on an element whose framework is unset, setting the framework to a
string absent from `nnfw_names`, to the placeholder "Not supported", to
"tensorflow" or "caffe2" (whose descriptor is NULL), or to a name the table
`nnfw_support_status` does not mark supported, is rejected; and no processing
call, in any element state, hands a buffer to a back-end. -/
theorem framework_unsupported_rejected (env : Env) (filter : GstTensor_Filter) (value : GValue)
    (hunset : filter.nnfw = _T_F_UNDEFINED)
    (hname : value.s ∉ nnfw_names ∨ value.s = "Not supported" ∨ value.s = "tensorflow" ∨
      value.s = "caffe2" ∨
      env.nnfw_support_status (find_key_strv nnfw_names value.s) = false) :
    (gst_tensor_filter_set_property env filter PROP_FRAMEWORK value).aborted = true ∧
    ∀ (later : GstTensor_Filter) (inbuf outbuf : GstBuffer),
      (gst_tensor_filter_transform later inbuf outbuf).invoked = [] ∧
      (gst_tensor_filter_transform_ip later inbuf).invoked = [] ∧
      (gst_tensor_filter_transform later inbuf outbuf).ret = GstFlowReturn.GST_FLOW_ERROR ∧
      (gst_tensor_filter_transform_ip later inbuf).ret = GstFlowReturn.GST_FLOW_ERROR := by
  refine ⟨?_, fun _ _ _ => ⟨rfl, rfl, rfl, rfl⟩⟩
  unfold gst_tensor_filter_set_property
  rw [switch_framework]
  rcases hname with h | h | h | h | h
  · have hf := find_key_strv_absent nnfw_names value.s h
    simp [hunset, hf, Run.abort]
  · have hf : find_key_strv nnfw_names value.s = 0 := by rw [h]; decide
    simp [hunset, hf, Run.abort, _T_F_UNDEFINED]
  · have hf : find_key_strv nnfw_names value.s = 3 := by rw [h]; decide
    have ht : tensor_filter_supported 3 = none := by decide
    simp only [hf, ht]
    split_ifs <;> first | rfl | contradiction
  · have hf : find_key_strv nnfw_names value.s = 4 := by rw [h]; decide
    have ht : tensor_filter_supported 4 = none := by decide
    simp only [hf, ht]
    split_ifs <;> first | rfl | contradiction
  · simp only [h]
    split_ifs <;> first | rfl | contradiction

/-- C2 at concrete inputs: on a fresh element, "tensorflow" (registered, no
descriptor) is rejected. -/
theorem framework_unsupported_rejected_witness :
    (gst_tensor_filter_set_property example_env fresh PROP_FRAMEWORK
      { b := false, s := "tensorflow" }).aborted = true ∧
    ∀ (later : GstTensor_Filter) (inbuf outbuf : GstBuffer),
      (gst_tensor_filter_transform later inbuf outbuf).invoked = [] ∧
      (gst_tensor_filter_transform_ip later inbuf).invoked = [] ∧
      (gst_tensor_filter_transform later inbuf outbuf).ret = GstFlowReturn.GST_FLOW_ERROR ∧
      (gst_tensor_filter_transform_ip later inbuf).ret = GstFlowReturn.GST_FLOW_ERROR :=
  framework_unsupported_rejected example_env fresh { b := false, s := "tensorflow" } rfl
    (Or.inr (Or.inr (Or.inl rfl)))

/-- C3, as the code has it: on an element whose model path is unset, setting
the model to path `p` is accepted if and only if `p` references an existing
regular file; whether the file is readable plays no part. -/
theorem model_accepted_iff_regular (env : Env) (filter : GstTensor_Filter) (value : GValue)
    (hunset : filter.modelFilename = none) :
    (gst_tensor_filter_set_property env filter PROP_MODEL value).aborted = false ↔
      ∃ st, env.file value.s = some st ∧ st.kind = FileKind.regular := by
  unfold gst_tensor_filter_set_property
  rw [switch_model]
  simp only [hunset, not_true_eq_false, if_false]
  unfold g_file_test_is_regular
  cases hf : env.file value.s with
  | none => simp [Run.abort]
  | some st =>
    by_cases hk : st.kind = FileKind.regular
    · simp [hk, Run.done]
    · simp [hk, Run.abort]

/-- C3 at concrete inputs: on a fresh element the regular file `model.tflite`
is accepted, the directory `models` and the missing `nothing` are rejected. -/
theorem model_accepted_iff_regular_witness :
    ((gst_tensor_filter_set_property example_env fresh PROP_MODEL
        { b := false, s := "models" }).aborted = false ↔
      ∃ st, example_env.file "models" = some st ∧ st.kind = FileKind.regular) ∧
    (gst_tensor_filter_set_property example_env fresh PROP_MODEL
        { b := false, s := "models" }).aborted = true ∧
    (gst_tensor_filter_set_property example_env fresh PROP_MODEL
        { b := false, s := "nothing" }).aborted = true ∧
    (gst_tensor_filter_set_property example_env fresh PROP_MODEL
        { b := false, s := "model.tflite" }).aborted = false :=
  ⟨model_accepted_iff_regular example_env fresh { b := false, s := "models" } rfl,
    by decide, by decide, by decide⟩

/-- C3 as stated fails: `model.tflite` is an existing regular file that is not
readable, and setting the model of a fresh element to it is accepted. -/
theorem model_unreadable_accepted :
    fresh.modelFilename = none ∧
    example_env.file "model.tflite" = some { kind := FileKind.regular, readable := false } ∧
    (gst_tensor_filter_set_property example_env fresh PROP_MODEL
        { b := false, s := "model.tflite" }).aborted = false ∧
    (gst_tensor_filter_set_property example_env fresh PROP_MODEL
        { b := false, s := "model.tflite" }).filter.modelFilename = some "model.tflite" := by
  decide

theorem get_rank_loop_four (dimension : tensor_dim) (h : ∀ i, 0 < dimension i) :
    gst_tensor_filter_get_rank_loop dimension 4 0 0 = some 4 := by
  simp [gst_tensor_filter_get_rank_loop, h]

/-- C4, what the code does instead: for every 4-axis dimension whose axes are
all at least 1, `gst_tensor_filter_get_rank` returns 4, whatever the axes are
(the loop tests the index `i > 1`, not the axis `dimension[i] > 1`). -/
theorem get_rank_always_limit (dimension : tensor_dim) (h : ∀ i, 0 < dimension i) :
    gst_tensor_filter_get_rank dimension = some 4 := by
  unfold gst_tensor_filter_get_rank NNS_TENSOR_RANK_LIMIT
  exact get_rank_loop_four dimension h

/-- C4 at the failing input: the dimension [5,1,1,1] parsed from "5" has rank 1
by the rank rule of the specification, and the code returns 4 for it. -/
theorem get_rank_always_limit_witness :
    (get_tensor_dimension "5" (mkDim 1 1 1 1)).2 = mkDim 5 1 1 1 ∧
    rank_of_spec (mkDim 5 1 1 1) = 1 ∧
    gst_tensor_filter_get_rank (mkDim 5 1 1 1) = some 4 ∧
    gst_tensor_filter_get_rank (mkDim 1 1 1 1) = some 4 :=
  ⟨by decide, by decide, get_rank_always_limit (mkDim 5 1 1 1) (by decide),
    get_rank_always_limit (mkDim 1 1 1 1) (by decide)⟩

/-! ## Claims on the tensor_transform conversions -/

theorem foldl_negotiate_fixed (chain : OperationChain) (t : tensor_type) :
    chain.foldl negotiate_step { out_type := t, fixed := true } =
      { out_type := t, fixed := true } := by
  induction chain with
  | nil => rfl
  | cons step rest ih =>
    cases step with
    | Typecast target => simpa [List.foldl, negotiate_step] using ih
    | Arithmetic op operand => simpa [List.foldl, negotiate_step] using ih

theorem foldl_negotiate_arithmetic (pre : OperationChain) (st : OutputNegotiation)
    (h : ∀ step ∈ pre, step.isTypecast = false) :
    pre.foldl negotiate_step st = st := by
  induction pre with
  | nil => rfl
  | cons step rest ih =>
    have hrest : ∀ s ∈ rest, s.isTypecast = false := fun s hs => h s (List.mem_cons_of_mem _ hs)
    cases step with
    | Typecast target =>
      have := h (OperationStep.Typecast target) (List.mem_cons_self _ _)
      simp [OperationStep.isTypecast] at this
    | Arithmetic op operand =>
      simpa [List.foldl, negotiate_step] using ih hrest

/-- C6: the output element type of a transform is the target of the first
Typecast step of its chain, whatever steps (Typecast steps included) follow
it, and the input type when the chain has no Typecast step; so the chain
typecast:float64, add:0.2, add:0.1, typecast:uint16 on uint8 input has output
type float64, not uint16. -/
theorem output_type_first_typecast (in_type : tensor_type) :
    (∀ (pre post : OperationChain) (target : tensor_type),
      (∀ step ∈ pre, step.isTypecast = false) →
      output_type in_type (pre ++ OperationStep.Typecast target :: post) = target) ∧
    (∀ chain : OperationChain, (∀ step ∈ chain, step.isTypecast = false) →
      output_type in_type chain = in_type) ∧
    output_type _NNS_UINT8
      [OperationStep.Typecast _NNS_FLOAT64, OperationStep.Arithmetic Operator.add (2 / 10),
        OperationStep.Arithmetic Operator.add (1 / 10), OperationStep.Typecast _NNS_UINT16] =
      _NNS_FLOAT64 ∧
    output_type _NNS_UINT8
      [OperationStep.Typecast _NNS_FLOAT64, OperationStep.Arithmetic Operator.add (2 / 10),
        OperationStep.Arithmetic Operator.add (1 / 10), OperationStep.Typecast _NNS_UINT16] ≠
      _NNS_UINT16 := by
  refine ⟨?_, ?_, ?_, ?_⟩
  · intro pre post target hpre
    unfold output_type
    rw [List.foldl_append, foldl_negotiate_arithmetic pre _ hpre]
    simp only [List.foldl, negotiate_step, Bool.false_eq_true, if_false]
    rw [foldl_negotiate_fixed]
  · intro chain hchain
    unfold output_type
    rw [foldl_negotiate_arithmetic chain _ hchain]
  · rfl
  · have h : output_type _NNS_UINT8
      [OperationStep.Typecast _NNS_FLOAT64, OperationStep.Arithmetic Operator.add (2 / 10),
        OperationStep.Arithmetic Operator.add (1 / 10), OperationStep.Typecast _NNS_UINT16] =
      _NNS_FLOAT64 := rfl
    rw [h]; decide

/-- C8: for every uint32 value `v`, the conversion to float32 is the
float32 nearest to `v` read as a signed 32-bit integer, and the conversion to
float64 is exactly that signed integer; both are negative for every `v` above
INT32_MAX and are -1 for `v` = 0xFFFFFFFF; a uint8 or uint16 value converts to
its unsigned magnitude in both floating types. -/
theorem uint32_to_float_reads_signed (v : Nat) (hv : v < 2 ^ 32) :
    conv_int_to_float _NNS_UINT32 _NNS_FLOAT32 v =
      ((round_nearest_even 24 (if 2 ^ 31 ≤ v then (v : Int) - 2 ^ 32 else (v : Int)) : Int) : ℚ) ∧
    conv_int_to_float _NNS_UINT32 _NNS_FLOAT64 v =
      (((if 2 ^ 31 ≤ v then (v : Int) - 2 ^ 32 else (v : Int)) : Int) : ℚ) ∧
    (2 ^ 31 - 1 < v →
      conv_int_to_float _NNS_UINT32 _NNS_FLOAT32 v < 0 ∧
      conv_int_to_float _NNS_UINT32 _NNS_FLOAT64 v < 0) ∧
    (v = 0xFFFFFFFF →
      conv_int_to_float _NNS_UINT32 _NNS_FLOAT32 v = -1 ∧
      conv_int_to_float _NNS_UINT32 _NNS_FLOAT64 v = -1) ∧
    (v < 2 ^ 16 →
      conv_int_to_float _NNS_UINT16 _NNS_FLOAT32 v = (v : ℚ) ∧
      conv_int_to_float _NNS_UINT16 _NNS_FLOAT64 v = (v : ℚ)) ∧
    (v < 2 ^ 8 →
      conv_int_to_float _NNS_UINT8 _NNS_FLOAT32 v = (v : ℚ) ∧
      conv_int_to_float _NNS_UINT8 _NNS_FLOAT64 v = (v : ℚ)) := by
  have h32 : conv_int_to_float _NNS_UINT32 _NNS_FLOAT32 v =
      ((round_nearest_even 24 (if 2 ^ 31 ≤ v then (v : Int) - 2 ^ 32 else (v : Int)) : Int) : ℚ) := by
    simp only [conv_int_to_float, if_true, float_precision, int_value_int32 v hv]
  have h64 : conv_int_to_float _NNS_UINT32 _NNS_FLOAT64 v =
      (((if 2 ^ 31 ≤ v then (v : Int) - 2 ^ 32 else (v : Int)) : Int) : ℚ) := by
    simp only [conv_int_to_float, if_true, float_precision, int_value_int32 v hv]
    rw [round_nearest_even_exact]
    norm_num at hv
    split_ifs <;> omega
  have hu16 : int_value _NNS_UINT16 v = (v : Int) := by simp [int_value, is_signed]
  have hu8 : int_value _NNS_UINT8 v = (v : Int) := by simp [int_value, is_signed]
  refine ⟨h32, h64, ?_, ?_, ?_, ?_⟩
  · intro hbig
    have hneg : (if 2 ^ 31 ≤ v then (v : Int) - 2 ^ 32 else (v : Int)) < 0 := by
      norm_num at hv hbig
      rw [if_pos (by omega)]
      omega
    rw [h32, h64]
    exact ⟨by exact_mod_cast round_nearest_even_neg 24 _ (by norm_num) hneg,
      by exact_mod_cast hneg⟩
  · intro hmax
    subst hmax
    exact ⟨by decide, by decide⟩
  · intro h16
    have hlt24 : (v : Int).natAbs < 2 ^ 24 := by norm_num at h16 ⊢; omega
    have hlt53 : (v : Int).natAbs < 2 ^ 53 := by norm_num at h16 ⊢; omega
    simp only [conv_int_to_float, float_precision, hu16, reduceCtorEq, if_false]
    rw [round_nearest_even_exact 24 _ hlt24, round_nearest_even_exact 53 _ hlt53]
    exact ⟨by norm_cast, by norm_cast⟩
  · intro h8
    have hlt24 : (v : Int).natAbs < 2 ^ 24 := by norm_num at h8 ⊢; omega
    have hlt53 : (v : Int).natAbs < 2 ^ 53 := by norm_num at h8 ⊢; omega
    simp only [conv_int_to_float, float_precision, hu8, reduceCtorEq, if_false]
    rw [round_nearest_even_exact 24 _ hlt24, round_nearest_even_exact 53 _ hlt53]
    exact ⟨by norm_cast, by norm_cast⟩

/-- C8 at concrete inputs: 0xFFFFFFFF converts to -1, 0x80000001 (above
INT32_MAX) to the negative float32 -2147483648 and float64 -2147483647, and the
uint16 65535 and uint8 255 to 65535 and 255. -/
theorem uint32_to_float_reads_signed_witness :
    conv_int_to_float _NNS_UINT32 _NNS_FLOAT32 0xFFFFFFFF = -1 ∧
    conv_int_to_float _NNS_UINT32 _NNS_FLOAT64 0xFFFFFFFF = -1 ∧
    conv_int_to_float _NNS_UINT32 _NNS_FLOAT32 0x80000001 = -2147483648 ∧
    conv_int_to_float _NNS_UINT32 _NNS_FLOAT64 0x80000001 = -2147483647 ∧
    conv_int_to_float _NNS_UINT16 _NNS_FLOAT32 65535 = 65535 ∧
    conv_int_to_float _NNS_UINT8 _NNS_FLOAT64 255 = 255 :=
  ⟨((uint32_to_float_reads_signed 0xFFFFFFFF (by norm_num)).2.2.2.1 rfl).1,
    ((uint32_to_float_reads_signed 0xFFFFFFFF (by norm_num)).2.2.2.1 rfl).2,
    by decide, by decide, by decide, by decide⟩

set_option maxHeartbeats 8000000 in
/-- C9: for every ordered pair of integer element types and every value `v`
of the source type, the conversion (sign extension of a signed source and zero
extension of an unsigned source when widening, the low bits when narrowing)
yields a value of the target type that is congruent to `v` modulo
`2 ^ width`, and it is the only such value; its bit pattern is that of `v` in
the target type, and a `v` the target type can hold is kept. -/
theorem convert_int_congruent (src dst : tensor_type) (v : Int)
    (hs : is_integer src = true) (hd : is_integer dst = true) (hv : in_range src v) :
    in_range dst (convert_int src dst v) ∧
    convert_int src dst v ≡ v [ZMOD 2 ^ bit_width dst] ∧
    (∀ u, in_range dst u → u ≡ v [ZMOD 2 ^ bit_width dst] → u = convert_int src dst v) ∧
    conv_int_to_int src dst (int_bits src v) = int_bits dst v ∧
    (in_range dst v → convert_int src dst v = v) := by
  cases src <;> first | (simp [is_integer] at hs; done) | skip
  all_goals (cases dst <;> first | (simp [is_integer] at hd; done) | skip)
  all_goals
    simp only [convert_int, conv_int_to_int, int_value, int_bits, in_range, is_signed, bit_width,
      tensor_element_size, sign_extend, zero_extend, truncate_bits, sign_bit, Int.ModEq,
      Nat.reduceMul, Nat.reducePow, Nat.reduceSub, Int.reducePow, Nat.reduceLT, decide_eq_true_eq,
      if_true, if_false, true_and, false_and, and_true, and_false, Nat.cast_ofNat, Int.reduceNeg,
      Bool.false_eq_true, reduceIte, Nat.lt_irrefl] at *
  all_goals
    refine ⟨?_, ?_, ?_, ?_, ?_⟩
  all_goals first
    | omega
    | (split_ifs <;> omega)

/-- C9 at concrete inputs: int8 -1 becomes uint8 255, uint16 65535 and
uint32 4294967295; uint16 65535 becomes int8 -1; int8 -128 widens to int64
-128 and uint8 255 to int16 255. -/
theorem convert_int_congruent_witness :
    in_range _NNS_INT8 (-1) ∧
    in_range _NNS_UINT16 (convert_int _NNS_INT8 _NNS_UINT16 (-1)) ∧
    convert_int _NNS_INT8 _NNS_UINT16 (-1) ≡ -1 [ZMOD 2 ^ bit_width _NNS_UINT16] ∧
    convert_int _NNS_INT8 _NNS_UINT8 (-1) = 255 ∧
    convert_int _NNS_INT8 _NNS_UINT16 (-1) = 65535 ∧
    convert_int _NNS_INT8 _NNS_UINT32 (-1) = 4294967295 ∧
    convert_int _NNS_UINT16 _NNS_INT8 65535 = -1 ∧
    convert_int _NNS_INT8 _NNS_INT64 (-128) = -128 ∧
    convert_int _NNS_UINT8 _NNS_INT16 255 = 255 :=
  ⟨by decide,
    (convert_int_congruent _NNS_INT8 _NNS_UINT16 (-1) rfl rfl (by decide)).1,
    (convert_int_congruent _NNS_INT8 _NNS_UINT16 (-1) rfl rfl (by decide)).2.1,
    by decide, by decide, by decide, by decide, by decide, by decide⟩

theorem trunc_toward_zero_eq (x : ℚ) :
    trunc_toward_zero x = if 0 ≤ x then ⌊x⌋ else ⌈x⌉ := by
  unfold trunc_toward_zero
  split_ifs with h
  · rw [Rat.floor_def]
    exact Int.tdiv_eq_ediv (Rat.num_nonneg.mpr h) (Int.natCast_nonneg _)
  · have hneg : 0 ≤ -x := by linarith [not_le.mp h]
    have h1 : ⌈x⌉ = -⌊-x⌋ := by rw [Int.floor_neg, neg_neg]
    rw [h1, Rat.floor_def, Rat.neg_num, Rat.neg_den]
    have h2 : 0 ≤ -x.num := by
      have := Rat.num_nonneg.mpr hneg
      rwa [Rat.neg_num] at this
    rw [← Int.tdiv_eq_ediv h2 (Int.natCast_nonneg _), Int.neg_tdiv, neg_neg]

theorem in_range_signed_of_signed (dst : tensor_type) :
    signed_of (signed_of dst) = signed_of dst ∧ bit_width (signed_of dst) = bit_width dst := by
  cases dst <;> exact ⟨rfl, rfl⟩

/-- C10: for every rational `x` (every finite float32 or float64 value is
one) whose truncation fits the signed integer type of the target's width, the
conversion to a signed integer type yields `x` truncated toward zero (the
floor of a non-negative `x`, the ceiling of a negative one), and the
conversion to the unsigned type of that width yields the same bit pattern as
the conversion to the signed type. -/
theorem float_to_int_truncates (dst : tensor_type) (x : ℚ) (hd : is_integer dst = true)
    (hx : in_range (signed_of dst) (trunc_toward_zero x)) :
    (∃ bits, conv_float_to_int (signed_of dst) x = some bits ∧
      int_value (signed_of dst) bits = (if 0 ≤ x then ⌊x⌋ else ⌈x⌉)) ∧
    conv_float_to_int dst x = conv_float_to_int (signed_of dst) x ∧
    conv_float_to_int dst x = some (((if 0 ≤ x then ⌊x⌋ else ⌈x⌉) % 2 ^ bit_width dst).toNat) := by
  rw [← trunc_toward_zero_eq]
  have hss := in_range_signed_of_signed dst
  have h1 : conv_float_to_int (signed_of dst) x =
      some (int_bits (signed_of dst) (trunc_toward_zero x)) := by
    unfold conv_float_to_int
    rw [hss.1, if_pos hx]
  have h2 : conv_float_to_int dst x = some (int_bits dst (trunc_toward_zero x)) := by
    unfold conv_float_to_int
    rw [if_pos hx]
  have h3 : int_bits (signed_of dst) (trunc_toward_zero x) = int_bits dst (trunc_toward_zero x) := by
    unfold int_bits; rw [hss.2]
  refine ⟨⟨_, h1, ?_⟩, ?_, ?_⟩
  · generalize trunc_toward_zero x = t at hx
    cases dst <;> first | (simp [is_integer] at hd; done) | skip
    all_goals
      simp only [int_value, int_bits, in_range, is_signed, signed_of, bit_width,
        tensor_element_size, sign_bit, Nat.reduceMul, Nat.reducePow, Nat.reduceSub, Int.reducePow,
        decide_eq_true_eq, if_true, true_and, Nat.cast_ofNat, Int.reduceNeg] at *
    all_goals omega
  · rw [h1, h2, h3]
  · rw [h2]; rfl

theorem trunc_toward_zero_examples :
    trunc_toward_zero (-3 / 2) = -1 ∧ trunc_toward_zero (5 / 2) = 2 ∧
    trunc_toward_zero (7 / 2) = 3 := by
  simp only [trunc_toward_zero_eq]
  refine ⟨?_, ?_, ?_⟩
  · rw [if_neg (by norm_num), Int.ceil_eq_iff]; norm_num
  · rw [if_pos (by norm_num), Int.floor_eq_iff]; norm_num
  · rw [if_pos (by norm_num), Int.floor_eq_iff]; norm_num

/-- C10 at concrete inputs: -1.0 converts to uint8 255, uint16 65535 and
uint32 4294967295, the patterns of int8, int16 and int32 -1; -1.5, 2.5 and 3.5
convert to the patterns of -1, 2 and 3 (truncated, not rounded). -/
theorem float_to_int_truncates_witness :
    ((∃ bits, conv_float_to_int (signed_of _NNS_UINT8) (-1) = some bits ∧
        int_value (signed_of _NNS_UINT8) bits = (if (0 : ℚ) ≤ -1 then ⌊(-1 : ℚ)⌋
          else ⌈(-1 : ℚ)⌉)) ∧
      conv_float_to_int _NNS_UINT8 (-1) = conv_float_to_int (signed_of _NNS_UINT8) (-1) ∧
      conv_float_to_int _NNS_UINT8 (-1) =
        some (((if (0 : ℚ) ≤ -1 then ⌊(-1 : ℚ)⌋ else ⌈(-1 : ℚ)⌉) %
          2 ^ bit_width _NNS_UINT8).toNat)) ∧
    conv_float_to_int _NNS_UINT8 (-1) = some 255 ∧
    conv_float_to_int _NNS_UINT16 (-1) = some 65535 ∧
    conv_float_to_int _NNS_UINT32 (-1) = some 4294967295 ∧
    conv_float_to_int _NNS_INT8 (-1) = some 255 ∧
    int_value _NNS_INT8 255 = -1 ∧
    conv_float_to_int _NNS_INT8 (-3 / 2) = some 255 ∧
    conv_float_to_int _NNS_INT16 (5 / 2) = some 2 ∧
    conv_float_to_int _NNS_INT32 (7 / 2) = some 3 :=
  ⟨float_to_int_truncates _NNS_UINT8 (-1) rfl (by decide),
    by decide, by decide, by decide, by decide, by decide,
    by unfold conv_float_to_int; rw [trunc_toward_zero_examples.1]; decide,
    by unfold conv_float_to_int; rw [trunc_toward_zero_examples.2.1]; decide,
    by unfold conv_float_to_int; rw [trunc_toward_zero_examples.2.2]; decide⟩

/-! ## Accepted calls, one step and in sequence -/

theorem accepted_step_flags (env : Env) (filter : GstTensor_Filter) (prop_id : Nat)
    (value : GValue) (events : List Event)
    (hok : (gst_tensor_filter_set_property_switch env filter prop_id value events).aborted = false) :
    ((gst_tensor_filter_set_property_switch env filter prop_id value events).filter.inputConfigured
        = true ↔ filter.inputConfigured = true ∨ prop_id = PROP_INPUT) ∧
    ((gst_tensor_filter_set_property_switch env filter prop_id value events).filter.inputType
        ≠ _NNS_END ↔ filter.inputType ≠ _NNS_END ∨ prop_id = PROP_INPUTTYPE) ∧
    ((gst_tensor_filter_set_property_switch env filter prop_id value events).filter.outputConfigured
        = true ↔ filter.outputConfigured = true ∨ prop_id = PROP_OUTPUT) ∧
    ((gst_tensor_filter_set_property_switch env filter prop_id value events).filter.outputType
        ≠ _NNS_END ↔ filter.outputType ≠ _NNS_END ∨ prop_id = PROP_OUTPUTTYPE) := by
  by_cases hq : (prop_id = PROP_SILENT ∨ prop_id = PROP_DEBUG ∨ prop_id = PROP_FRAMEWORK ∨
      prop_id = PROP_MODEL ∨ prop_id = PROP_INPUT ∨ prop_id = PROP_OUTPUT ∨
      prop_id = PROP_INPUTTYPE ∨ prop_id = PROP_OUTPUTTYPE)
  · rcases hq with rfl | rfl | rfl | rfl | rfl | rfl | rfl | rfl
    · rw [switch_silent]; simp [Run.done, PROP_SILENT, PROP_INPUT, PROP_INPUTTYPE, PROP_OUTPUT,
        PROP_OUTPUTTYPE]
    · rw [switch_debug]; simp [Run.done, PROP_DEBUG, PROP_INPUT, PROP_INPUTTYPE, PROP_OUTPUT,
        PROP_OUTPUTTYPE]
    · rw [switch_framework] at hok ⊢
      split_ifs at hok ⊢ <;>
        first
        | simp [Run.abort] at hok
        | simp [Run.done, PROP_FRAMEWORK, PROP_INPUT, PROP_INPUTTYPE, PROP_OUTPUT, PROP_OUTPUTTYPE]
    · rw [switch_model] at hok ⊢
      split_ifs at hok ⊢ <;>
        first
        | simp [Run.abort] at hok
        | simp [Run.done, PROP_MODEL, PROP_INPUT, PROP_INPUTTYPE, PROP_OUTPUT, PROP_OUTPUTTYPE]
    · rw [switch_input] at hok ⊢
      split_ifs at hok ⊢ <;>
        first
        | simp [Run.abort] at hok
        | simp [Run.done, fix_caps_filter, PROP_INPUT, PROP_INPUTTYPE, PROP_OUTPUT,
            PROP_OUTPUTTYPE]
    · rw [switch_output] at hok ⊢
      split_ifs at hok ⊢ <;>
        first
        | simp [Run.abort] at hok
        | simp [Run.done, fix_caps_filter, PROP_INPUT, PROP_INPUTTYPE, PROP_OUTPUT,
            PROP_OUTPUTTYPE]
    · rw [switch_inputtype] at hok ⊢
      split_ifs at hok ⊢ with h1 h2 h3 <;>
        first
        | simp [Run.abort] at hok
        | (simp only [ne_eq, not_not] at h2
           simp [Run.done, fix_caps_filter, PROP_INPUT, PROP_INPUTTYPE, PROP_OUTPUT,
            PROP_OUTPUTTYPE, h2])
    · rw [switch_outputtype] at hok ⊢
      split_ifs at hok ⊢ with h1 h2 h3 <;>
        first
        | simp [Run.abort] at hok
        | (simp only [ne_eq, not_not] at h2
           simp [Run.done, fix_caps_filter, PROP_INPUT, PROP_INPUTTYPE, PROP_OUTPUT,
            PROP_OUTPUTTYPE, h2])
  · rw [switch_default env filter prop_id value _ hq]
    simp only [not_or] at hq
    obtain ⟨_, _, _, _, h5, h6, h7, h8⟩ := hq
    simp [Run.done, h5, h6, h7, h8]

theorem accepted_call_flags (env : Env) (filter : GstTensor_Filter) (prop_id : Nat)
    (value : GValue)
    (hok : (gst_tensor_filter_set_property env filter prop_id value).aborted = false) :
    ((gst_tensor_filter_set_property env filter prop_id value).filter.inputConfigured
        = true ↔ filter.inputConfigured = true ∨ prop_id = PROP_INPUT) ∧
    ((gst_tensor_filter_set_property env filter prop_id value).filter.inputType
        ≠ _NNS_END ↔ filter.inputType ≠ _NNS_END ∨ prop_id = PROP_INPUTTYPE) ∧
    ((gst_tensor_filter_set_property env filter prop_id value).filter.outputConfigured
        = true ↔ filter.outputConfigured = true ∨ prop_id = PROP_OUTPUT) ∧
    ((gst_tensor_filter_set_property env filter prop_id value).filter.outputType
        ≠ _NNS_END ↔ filter.outputType ≠ _NNS_END ∨ prop_id = PROP_OUTPUTTYPE) :=
  accepted_step_flags env filter prop_id value _ hok

theorem set_properties_cons (env : Env) (filter : GstTensor_Filter) (call : Nat × GValue)
    (rest : List (Nat × GValue)) (final : GstTensor_Filter) (events : List Event) :
    set_properties env filter (call :: rest) = some (final, events) ↔
      (gst_tensor_filter_set_property env filter call.1 call.2).aborted = false ∧
      ∃ later, set_properties env
          (gst_tensor_filter_set_property env filter call.1 call.2).filter rest =
            some (final, later) ∧
        events = (gst_tensor_filter_set_property env filter call.1 call.2).events ++ later := by
  rw [set_properties]
  split_ifs with hab
  · simp [hab]
  · have hab2 : (gst_tensor_filter_set_property env filter call.1 call.2).aborted = false := by
      simpa using hab
    cases hrest : set_properties env
        (gst_tensor_filter_set_property env filter call.1 call.2).filter rest with
    | none => simp [hab2]
    | some r =>
      obtain ⟨g, ev⟩ := r
      simp only [Option.some.injEq, Prod.mk.injEq, hab2, true_and]
      constructor
      · rintro ⟨rfl, rfl⟩; exact ⟨ev, ⟨rfl, rfl⟩, rfl⟩
      · rintro ⟨later, ⟨rfl, rfl⟩, rfl⟩; exact ⟨rfl, rfl⟩

theorem or_mem_cons_step (A : Prop) (p : Nat) (call : Nat × GValue)
    (rest : List (Nat × GValue)) :
    ((A ∨ call.1 = p) ∨ p ∈ prop_ids rest) ↔ (A ∨ p ∈ prop_ids (call :: rest)) := by
  simp only [prop_ids, List.map_cons, List.mem_cons]
  constructor
  · rintro ((h | h) | h)
    · exact Or.inl h
    · exact Or.inr (Or.inl h.symm)
    · exact Or.inr (Or.inr h)
  · rintro (h | h | h)
    · exact Or.inl (Or.inl h)
    · exact Or.inl (Or.inr h.symm)
    · exact Or.inr h

theorem set_properties_flags (env : Env) (calls : List (Nat × GValue)) :
    ∀ (filter final : GstTensor_Filter) (events : List Event),
    set_properties env filter calls = some (final, events) →
    (final.inputConfigured = true ↔
      filter.inputConfigured = true ∨ PROP_INPUT ∈ prop_ids calls) ∧
    (final.inputType ≠ _NNS_END ↔
      filter.inputType ≠ _NNS_END ∨ PROP_INPUTTYPE ∈ prop_ids calls) ∧
    (final.outputConfigured = true ↔
      filter.outputConfigured = true ∨ PROP_OUTPUT ∈ prop_ids calls) ∧
    (final.outputType ≠ _NNS_END ↔
      filter.outputType ≠ _NNS_END ∨ PROP_OUTPUTTYPE ∈ prop_ids calls) := by
  induction calls with
  | nil =>
    intro filter final events h
    simp only [set_properties, Option.some.injEq, Prod.mk.injEq] at h
    obtain ⟨rfl, -⟩ := h
    simp [prop_ids]
  | cons call rest ih =>
    intro filter final events h
    obtain ⟨hok, later, hrest, -⟩ := (set_properties_cons _ _ _ _ _ _).mp h
    obtain ⟨i1, i2, i3, i4⟩ := ih _ _ _ hrest
    obtain ⟨s1, s2, s3, s4⟩ := accepted_call_flags env filter call.1 call.2 hok
    exact ⟨i1.trans ((or_congr s1 Iff.rfl).trans (or_mem_cons_step _ _ _ _)),
      i2.trans ((or_congr s2 Iff.rfl).trans (or_mem_cons_step _ _ _ _)),
      i3.trans ((or_congr s3 Iff.rfl).trans (or_mem_cons_step _ _ _ _)),
      i4.trans ((or_congr s4 Iff.rfl).trans (or_mem_cons_step _ _ _ _))⟩

theorem parseDigits_eq (field : List Char) : ∀ acc : Nat,
    parseDigits field acc =
      if ∀ c ∈ field, '0' ≤ c ∧ c ≤ '9' then
        some (field.foldl (fun acc c => 10 * acc + (c.toNat - '0'.toNat)) acc)
      else none := by
  induction field with
  | nil => intro acc; simp [parseDigits]
  | cons c cs ih =>
    intro acc
    by_cases hc : '0' ≤ c ∧ c ≤ '9'
    · have hd : digitValue c = some (c.toNat - '0'.toNat) := by
        unfold digitValue; rw [if_pos hc]
      simp only [parseDigits, hd, ih, List.mem_cons, forall_eq_or_imp, hc, true_and,
        List.foldl_cons]
    · have hd : digitValue c = none := by
        unfold digitValue; rw [if_neg hc]
      simp only [parseDigits, hd, List.mem_cons, forall_eq_or_imp, hc, false_and, if_false]

theorem parseAxis_eq (field : List Char) :
    parseAxis field =
      if is_decimal field ∧ 1 ≤ decimal_value field ∧ decimal_value field ≤ 65535 then
        some (decimal_value field)
      else none := by
  cases field with
  | nil => simp [parseAxis, is_decimal]
  | cons c cs =>
    simp only [parseAxis, parseDigits_eq, is_decimal, decimal_value, ne_eq, reduceCtorEq,
      not_false_eq_true, true_and]
    by_cases hd : ∀ x ∈ c :: cs, '0' ≤ x ∧ x ≤ '9'
    · rw [if_pos hd]
      exact (if_congr (and_iff_right hd) rfl rfl).symm
    · rw [if_neg hd, if_neg (fun h => hd h.1)]

theorem parseAxes_eq (fields : List (List Char)) :
    parseAxes fields =
      if ∀ field ∈ fields,
          is_decimal field ∧ 1 ≤ decimal_value field ∧ decimal_value field ≤ 65535 then
        some (fields.map decimal_value)
      else none := by
  induction fields with
  | nil => simp [parseAxes]
  | cons f fs ih =>
    simp only [parseAxes, parseAxis_eq, ih, List.mem_cons, forall_eq_or_imp, List.map_cons]
    by_cases h1 : is_decimal f ∧ 1 ≤ decimal_value f ∧ decimal_value f ≤ 65535
    · by_cases h2 : ∀ a ∈ fs, is_decimal a ∧ 1 ≤ decimal_value a ∧ decimal_value a ≤ 65535
      · simp only [if_pos h1, if_pos h2, if_pos (And.intro h1 h2)]
      · simp only [if_pos h1, if_neg h2, h2, and_false, if_false]
    · by_cases h2 : ∀ a ∈ fs, is_decimal a ∧ 1 ≤ decimal_value a ∧ decimal_value a ≤ 65535
      · simp only [if_neg h1, if_pos h2, h1, false_and, if_false]
      · simp only [if_neg h1, if_neg h2, h1, false_and, if_false]

theorem splitColon_length_pos (l : List Char) : 1 ≤ (splitColon l).length := by
  induction l with
  | nil => simp [splitColon]
  | cons c cs ih =>
    unfold splitColon
    split_ifs
    · simp
    · split <;> simp

theorem get_tensor_dimension_eq (param : String) (dim : tensor_dim) :
    get_tensor_dimension param dim =
      if well_formed_dimension param then
        (((splitColon param.toList).length : Int), dimension_of_string param)
      else (0, dim) := by
  unfold get_tensor_dimension well_formed_dimension dimension_of_string NNS_TENSOR_RANK_LIMIT
  rw [parseAxes_eq]
  have hpos := splitColon_length_pos param.toList
  by_cases hall : ∀ field ∈ splitColon param.toList,
      is_decimal field ∧ 1 ≤ decimal_value field ∧ decimal_value field ≤ 65535
  · rw [if_pos hall]
    simp only [List.length_map]
    by_cases hlen : (splitColon param.toList).length ≤ 4
    · rw [if_pos hlen, if_pos (And.intro hpos (And.intro hlen hall))]
    · rw [if_neg hlen, if_neg (fun h => hlen h.2.1)]
  · rw [if_neg hall, if_neg (fun h => hall h.2.2)]

theorem get_tensor_dimension_rank_ok (param : String) (dim : tensor_dim) :
    ((get_tensor_dimension param dim).1 > 0 ∧
      (get_tensor_dimension param dim).1 ≤ (NNS_TENSOR_RANK_LIMIT : Int)) ↔
      well_formed_dimension param := by
  rw [get_tensor_dimension_eq]
  by_cases hw : well_formed_dimension param
  · rw [if_pos hw]
    obtain ⟨h1, h2, h3⟩ := hw
    refine ⟨fun _ => ⟨h1, h2, h3⟩, fun _ => ?_⟩
    unfold NNS_TENSOR_RANK_LIMIT
    dsimp only
    constructor <;> omega
  · rw [if_neg hw]
    refine ⟨fun h => ?_, fun h => absurd h hw⟩
    dsimp only at h
    omega

/-- C11, as the code has it: after any sequence of accepted `set_property`
calls on a fresh element, `inputConfigured` (resp. `outputConfigured`) is TRUE
if and only if the dimension of that direction has been set, whether or not
its type has been set; the type field is set if and only if the type has been
set; so a direction has both if and only if its flag is TRUE and its type
field is not `_NNS_END`. -/
theorem configured_flag_marks_dimension (env : Env) (calls : List (Nat × GValue))
    (final : GstTensor_Filter) (events : List Event)
    (h : set_properties env fresh calls = some (final, events)) :
    (final.inputConfigured = true ↔ PROP_INPUT ∈ prop_ids calls) ∧
    (final.outputConfigured = true ↔ PROP_OUTPUT ∈ prop_ids calls) ∧
    (final.inputType ≠ _NNS_END ↔ PROP_INPUTTYPE ∈ prop_ids calls) ∧
    (final.outputType ≠ _NNS_END ↔ PROP_OUTPUTTYPE ∈ prop_ids calls) ∧
    (both_set final true ↔ PROP_INPUT ∈ prop_ids calls ∧ PROP_INPUTTYPE ∈ prop_ids calls) ∧
    (both_set final false ↔ PROP_OUTPUT ∈ prop_ids calls ∧ PROP_OUTPUTTYPE ∈ prop_ids calls) := by
  obtain ⟨h1, h2, h3, h4⟩ := set_properties_flags env calls fresh final events h
  have f1 : ¬ fresh.inputConfigured = true := by decide
  have f2 : ¬ fresh.inputType ≠ _NNS_END := by decide
  have f3 : ¬ fresh.outputConfigured = true := by decide
  have f4 : ¬ fresh.outputType ≠ _NNS_END := by decide
  have g1 := h1.trans (or_iff_right f1)
  have g2 := h2.trans (or_iff_right f2)
  have g3 := h3.trans (or_iff_right f3)
  have g4 := h4.trans (or_iff_right f4)
  refine ⟨g1, g3, g2, g4, ?_, ?_⟩
  · simp only [both_set, if_true]
    exact and_congr g1 g2
  · simp only [both_set, Bool.false_eq_true, if_false]
    exact and_congr g3 g4

/-- C11 at a concrete input: after the one accepted call input=5 on a fresh
element the flag is TRUE and the type is still unset. -/
theorem configured_flag_marks_dimension_witness :
    ∃ final events,
      set_properties example_env fresh [(PROP_INPUT, { b := false, s := "5" })] =
        some (final, events) ∧
      final.inputConfigured = true ∧ ¬ final.inputType ≠ _NNS_END ∧ ¬ both_set final true := by
  refine ⟨_, _, rfl, ?_⟩
  have h := configured_flag_marks_dimension example_env
    [(PROP_INPUT, { b := false, s := "5" })] _ _ rfl
  exact ⟨h.1.mpr (by decide), fun k => absurd (h.2.2.1.mp k) (by decide),
    fun k => absurd (h.2.2.2.2.1.mp k).2 (by decide)⟩

/-- C11 as stated fails: setting only the dimension of the input of a fresh
element is accepted and leaves `inputConfigured` TRUE while the input type is
still `_NNS_END`. -/
theorem dimension_alone_sets_flag :
    (gst_tensor_filter_set_property example_env fresh PROP_INPUT
        { b := false, s := "5" }).aborted = false ∧
    (gst_tensor_filter_set_property example_env fresh PROP_INPUT
        { b := false, s := "5" }).filter.inputConfigured = true ∧
    (gst_tensor_filter_set_property example_env fresh PROP_INPUT
        { b := false, s := "5" }).filter.inputType = _NNS_END ∧
    (gst_tensor_filter_set_property example_env fresh PROP_OUTPUT
        { b := false, s := "5" }).filter.outputConfigured = true ∧
    (gst_tensor_filter_set_property example_env fresh PROP_OUTPUT
        { b := false, s := "5" }).filter.outputType = _NNS_END := by
  decide

/-- C13: when the capability computed for a direction has an empty
intersection with the capability the pad holds, `gst_tensor_filter_fix_caps`
hands the empty capability to `gst_pad_set_caps`, which refuses a capability
that is not fixed; the function then raises the negotiation error and aborts,
it does not return normally. -/
theorem fix_caps_empty_intersection_fails (env : Env) (filter : GstTensor_Filter)
    (isInput : Bool) (events : List Event) (rank : Int)
    (hrank : gst_tensor_filter_get_rank
      (if isInput = true then filter.inputDimension else filter.outputDimension) = some rank)
    (hempty : env.gst_caps_intersect_full (env.gst_pad_get_current_caps isInput)
      (some (fix_caps_tmp (if isInput = true then filter.inputType else filter.outputType)
        (if isInput = true then filter.inputDimension else filter.outputDimension) rank)) =
      some [])
    (hlib : env.gst_pad_set_caps isInput (some []) = false) :
    (gst_tensor_filter_fix_caps env filter isInput events).aborted = true ∧
    (gst_tensor_filter_fix_caps env filter isInput events).events =
      events ++ [Event.pad_set_caps isInput (some []), Event.element_error_negotiation] := by
  unfold gst_tensor_filter_fix_caps
  simp only [hrank, hempty, hlib, if_true]
  exact ⟨rfl, rfl⟩

/-- C13 at a concrete input: the sink pad holds a video capability; the
input of the element is uint8 [5,1,1,1]; fixing its capability fails with the
negotiation error, and so does the `set_property` call that completes the
input. -/
theorem fix_caps_empty_intersection_fails_witness :
    (gst_tensor_filter_fix_caps
        (gst_like_env (some [{ name := "video/x-raw", fields := [] }]) none)
        { fresh with inputConfigured := true, inputDimension := mkDim 5 1 1 1,
                     inputType := _NNS_UINT8 } true []).aborted = true ∧
    (gst_tensor_filter_fix_caps
        (gst_like_env (some [{ name := "video/x-raw", fields := [] }]) none)
        { fresh with inputConfigured := true, inputDimension := mkDim 5 1 1 1,
                     inputType := _NNS_UINT8 } true []).events =
      [] ++ [Event.pad_set_caps true (some []), Event.element_error_negotiation] :=
  fix_caps_empty_intersection_fails
    (gst_like_env (some [{ name := "video/x-raw", fields := [] }]) none)
    { fresh with inputConfigured := true, inputDimension := mkDim 5 1 1 1,
                 inputType := _NNS_UINT8 } true [] 4 (by decide) (by decide) (by decide)

/-- C14: in every element state in which framework, model path, input or
output is not completely set, `gst_tensor_filter_transform` and
`gst_tensor_filter_transform_ip` return GST_FLOW_ERROR, never GST_FLOW_OK,
and hand no buffer to a back-end. -/
theorem processing_fails_when_not_configured (trans : GstTensor_Filter)
    (inbuf outbuf : GstBuffer) (h : ¬ all_configured trans) :
    (gst_tensor_filter_transform trans inbuf outbuf).ret = GstFlowReturn.GST_FLOW_ERROR ∧
    (gst_tensor_filter_transform trans inbuf outbuf).ret ≠ GstFlowReturn.GST_FLOW_OK ∧
    (gst_tensor_filter_transform trans inbuf outbuf).invoked = [] ∧
    (gst_tensor_filter_transform_ip trans inbuf).ret = GstFlowReturn.GST_FLOW_ERROR ∧
    (gst_tensor_filter_transform_ip trans inbuf).ret ≠ GstFlowReturn.GST_FLOW_OK ∧
    (gst_tensor_filter_transform_ip trans inbuf).invoked = [] := by
  have hne : GstFlowReturn.GST_FLOW_ERROR ≠ GstFlowReturn.GST_FLOW_OK := by decide
  exact ⟨rfl, hne, rfl, rfl, hne, rfl⟩

/-- C14 at a concrete input: a fresh element has nothing set and fails to
process a buffer. -/
theorem processing_fails_when_not_configured_witness :
    ¬ all_configured fresh ∧
    (gst_tensor_filter_transform fresh [1, 2, 3] []).ret = GstFlowReturn.GST_FLOW_ERROR ∧
    (gst_tensor_filter_transform fresh [1, 2, 3] []).invoked = [] ∧
    (gst_tensor_filter_transform_ip fresh [1, 2, 3]).ret = GstFlowReturn.GST_FLOW_ERROR :=
  ⟨by decide,
    (processing_fails_when_not_configured fresh [1, 2, 3] [] (by decide)).1,
    (processing_fails_when_not_configured fresh [1, 2, 3] [] (by decide)).2.2.1,
    (processing_fails_when_not_configured fresh [1, 2, 3] [] (by decide)).2.2.2.1⟩

/-- C15, what the code does instead: in every element state in which
framework, model path, input and output are all set, and for every input
buffer, `gst_tensor_filter_transform` returns GST_FLOW_ERROR, hands the buffer
to no back-end and leaves the output buffer as it was. -/
theorem transform_fails_when_configured (trans : GstTensor_Filter) (inbuf outbuf : GstBuffer)
    (h : all_configured trans) :
    (gst_tensor_filter_transform trans inbuf outbuf).ret = GstFlowReturn.GST_FLOW_ERROR ∧
    (gst_tensor_filter_transform trans inbuf outbuf).ret ≠ GstFlowReturn.GST_FLOW_OK ∧
    (gst_tensor_filter_transform trans inbuf outbuf).invoked = [] ∧
    (gst_tensor_filter_transform trans inbuf outbuf).outbuf = outbuf := by
  have hne : GstFlowReturn.GST_FLOW_ERROR ≠ GstFlowReturn.GST_FLOW_OK := by decide
  exact ⟨rfl, hne, rfl, rfl⟩

/-- C15 at the failing input: the element configured by framework
tensorflow-lite, model model.tflite, input uint8 3:224:224 and output float32
1000 fails to process a buffer and invokes nothing. -/
theorem transform_fails_when_configured_witness :
    ∃ final events, set_properties example_env fresh example_calls = some (final, events) ∧
      all_configured final ∧
      (gst_tensor_filter_transform final [1, 2, 3] []).ret = GstFlowReturn.GST_FLOW_ERROR ∧
      (gst_tensor_filter_transform final [1, 2, 3] []).invoked = [] := by
  refine ⟨_, _, rfl, by decide, ?_⟩
  have h := transform_fails_when_configured
    (gst_tensor_filter_set_property example_env
      (gst_tensor_filter_set_property example_env
        (gst_tensor_filter_set_property example_env
          (gst_tensor_filter_set_property example_env
            (gst_tensor_filter_set_property example_env
              (gst_tensor_filter_set_property example_env fresh PROP_FRAMEWORK
                { b := false, s := "tensorflow-lite" }).filter PROP_MODEL
              { b := false, s := "model.tflite" }).filter PROP_INPUTTYPE
            { b := false, s := "uint8" }).filter PROP_INPUT
          { b := false, s := "3:224:224" }).filter PROP_OUTPUT
        { b := false, s := "1000" }).filter PROP_OUTPUTTYPE
      { b := false, s := "float32" }).filter [1, 2, 3] [] (by decide)
  exact ⟨h.1, h.2.2.1⟩

/-- C16: for every element state and every buffer, a processing call
(`gst_tensor_filter_transform` or `gst_tensor_filter_transform_ip`) leaves
the element, and so every configuration field, unchanged. -/
theorem processing_keeps_configuration (trans : GstTensor_Filter) (inbuf outbuf : GstBuffer) :
    (gst_tensor_filter_transform trans inbuf outbuf).filter = trans ∧
    (gst_tensor_filter_transform_ip trans inbuf).filter = trans ∧
    (gst_tensor_filter_transform trans inbuf outbuf).filter.nnfw = trans.nnfw ∧
    (gst_tensor_filter_transform trans inbuf outbuf).filter.fw = trans.fw ∧
    (gst_tensor_filter_transform trans inbuf outbuf).filter.modelFilename = trans.modelFilename ∧
    (gst_tensor_filter_transform trans inbuf outbuf).filter.inputDimension =
      trans.inputDimension ∧
    (gst_tensor_filter_transform trans inbuf outbuf).filter.outputDimension =
      trans.outputDimension ∧
    (gst_tensor_filter_transform trans inbuf outbuf).filter.inputType = trans.inputType ∧
    (gst_tensor_filter_transform trans inbuf outbuf).filter.outputType = trans.outputType ∧
    (gst_tensor_filter_transform trans inbuf outbuf).filter.inputConfigured =
      trans.inputConfigured ∧
    (gst_tensor_filter_transform trans inbuf outbuf).filter.outputConfigured =
      trans.outputConfigured :=
  ⟨rfl, rfl, rfl, rfl, rfl, rfl, rfl, rfl, rfl, rfl, rfl⟩

/-! ## Claims on single properties -/

/-- C18: for each of the ten canonical element type names, setting the input
type (resp. output type) of a fresh element to it is accepted, and reading the
property back gives the same name. -/
theorem type_name_read_back (env : Env) (b : Bool) (name : String)
    (h : name ∈ canonical_type_names) :
    (gst_tensor_filter_set_property env fresh PROP_INPUTTYPE { b := b, s := name }).aborted =
      false ∧
    gst_tensor_filter_get_property
      (gst_tensor_filter_set_property env fresh PROP_INPUTTYPE { b := b, s := name }).filter
      PROP_INPUTTYPE = some (PropertyValue.string (some name)) ∧
    (gst_tensor_filter_set_property env fresh PROP_OUTPUTTYPE { b := b, s := name }).aborted =
      false ∧
    gst_tensor_filter_get_property
      (gst_tensor_filter_set_property env fresh PROP_OUTPUTTYPE { b := b, s := name }).filter
      PROP_OUTPUTTYPE = some (PropertyValue.string (some name)) ∧
    tensor_element_typename (get_tensor_type name) = some name := by
  simp only [canonical_type_names, List.mem_cons, List.mem_singleton, List.not_mem_nil,
    or_false] at h
  rcases h with rfl | rfl | rfl | rfl | rfl | rfl | rfl | rfl | rfl | rfl <;>
    exact ⟨rfl, rfl, rfl, rfl, rfl⟩

/-- C18 at a concrete input: float32 set as input type is read back. -/
theorem type_name_read_back_witness :
    (gst_tensor_filter_set_property example_env fresh PROP_INPUTTYPE
      { b := false, s := "float32" }).aborted = false ∧
    gst_tensor_filter_get_property
      (gst_tensor_filter_set_property example_env fresh PROP_INPUTTYPE
        { b := false, s := "float32" }).filter
      PROP_INPUTTYPE = some (PropertyValue.string (some "float32")) :=
  ⟨(type_name_read_back example_env false "float32" (by decide)).1,
    (type_name_read_back example_env false "float32" (by decide)).2.1⟩

theorem get_tensor_type_unknown (name : String) (h : name ∉ canonical_type_names) :
    get_tensor_type name = _NNS_END := by
  simp only [canonical_type_names, List.mem_cons, List.mem_singleton, List.not_mem_nil,
    or_false, not_or] at h
  obtain ⟨h1, h2, h3, h4, h5, h6, h7, h8, h9, h10⟩ := h
  unfold get_tensor_type
  simp only [h1, h2, h3, h4, h5, h6, h7, h8, h9, h10, if_false]

/-- C19: in every element state, setting the input type or the output type to
a string that is not exactly one of the ten canonical lowercase names is
rejected; the comparison is case-sensitive. -/
theorem unknown_type_name_rejected (env : Env) (filter : GstTensor_Filter) (value : GValue)
    (h : value.s ∉ canonical_type_names) :
    (gst_tensor_filter_set_property env filter PROP_INPUTTYPE value).aborted = true ∧
    (gst_tensor_filter_set_property env filter PROP_OUTPUTTYPE value).aborted = true := by
  have ht := get_tensor_type_unknown value.s h
  unfold gst_tensor_filter_set_property
  rw [switch_inputtype, switch_outputtype, ht]
  constructor
  · split_ifs <;> first | rfl | contradiction
  · split_ifs <;> first | rfl | contradiction

/-- C19 at concrete inputs: "UINT8", "Float32" and "bogus" are rejected on a
fresh element. -/
theorem unknown_type_name_rejected_witness :
    (gst_tensor_filter_set_property example_env fresh PROP_INPUTTYPE
      { b := false, s := "UINT8" }).aborted = true ∧
    (gst_tensor_filter_set_property example_env fresh PROP_OUTPUTTYPE
      { b := false, s := "Float32" }).aborted = true ∧
    (gst_tensor_filter_set_property example_env fresh PROP_INPUTTYPE
      { b := false, s := "bogus" }).aborted = true :=
  ⟨(unknown_type_name_rejected example_env fresh { b := false, s := "UINT8" } (by decide)).1,
    (unknown_type_name_rejected example_env fresh { b := false, s := "Float32" } (by decide)).2,
    (unknown_type_name_rejected example_env fresh { b := false, s := "bogus" } (by decide)).1⟩

/-- C20: for "custom" and "tensorflow-lite", when the table
`nnfw_support_status` marks the back-end supported, setting the framework of a
fresh element to that name is accepted, stores the descriptor of
`tensor_filter_supported` for it (`NNS_support_custom`, resp.
`NNS_support_tensorflow_lite`), and reading the framework back gives the same
name. -/
theorem supported_framework_read_back (env : Env) (b : Bool) (name : String)
    (hname : name = "custom" ∨ name = "tensorflow-lite")
    (hstatus : env.nnfw_support_status (find_key_strv nnfw_names name) = true) :
    (gst_tensor_filter_set_property env fresh PROP_FRAMEWORK { b := b, s := name }).aborted =
      false ∧
    (gst_tensor_filter_set_property env fresh PROP_FRAMEWORK { b := b, s := name }).filter.fw =
      tensor_filter_supported
        (gst_tensor_filter_set_property env fresh PROP_FRAMEWORK { b := b, s := name }).filter.nnfw ∧
    (gst_tensor_filter_set_property env fresh PROP_FRAMEWORK { b := b, s := name }).filter.fw =
      some (if name = "custom" then NNS_support_custom else NNS_support_tensorflow_lite) ∧
    gst_tensor_filter_get_property
      (gst_tensor_filter_set_property env fresh PROP_FRAMEWORK { b := b, s := name }).filter
      PROP_FRAMEWORK = some (PropertyValue.string (some name)) := by
  unfold gst_tensor_filter_set_property
  rw [switch_framework]
  rcases hname with rfl | rfl
  · have hf : find_key_strv nnfw_names "custom" = 1 := by decide
    rw [hf] at hstatus
    simp only [hf, hstatus]
    exact ⟨rfl, rfl, rfl, rfl⟩
  · have hf : find_key_strv nnfw_names "tensorflow-lite" = 2 := by decide
    rw [hf] at hstatus
    simp only [hf, hstatus]
    exact ⟨rfl, rfl, rfl, rfl⟩

/-- C20 at a concrete input: tensorflow-lite, marked supported, is accepted on
a fresh element and read back. -/
theorem supported_framework_read_back_witness :
    (gst_tensor_filter_set_property example_env fresh PROP_FRAMEWORK
      { b := false, s := "tensorflow-lite" }).aborted = false ∧
    (gst_tensor_filter_set_property example_env fresh PROP_FRAMEWORK
      { b := false, s := "tensorflow-lite" }).filter.fw = some NNS_support_tensorflow_lite ∧
    gst_tensor_filter_get_property
      (gst_tensor_filter_set_property example_env fresh PROP_FRAMEWORK
        { b := false, s := "tensorflow-lite" }).filter
      PROP_FRAMEWORK = some (PropertyValue.string (some "tensorflow-lite")) :=
  ⟨(supported_framework_read_back example_env false "tensorflow-lite" (Or.inr rfl)
      (by decide)).1,
    (supported_framework_read_back example_env false "tensorflow-lite" (Or.inr rfl)
      (by decide)).2.2.1,
    (supported_framework_read_back example_env false "tensorflow-lite" (Or.inr rfl)
      (by decide)).2.2.2⟩

/-! ## What a call can change -/

theorem call_frame (env : Env) (filter : GstTensor_Filter) (prop_id : Nat) (value : GValue)
    (events : List Event) :
    (prop_id ≠ PROP_FRAMEWORK →
      (gst_tensor_filter_set_property_switch env filter prop_id value events).filter.nnfw =
        filter.nnfw ∧
      (gst_tensor_filter_set_property_switch env filter prop_id value events).filter.fw =
        filter.fw) ∧
    (prop_id ≠ PROP_MODEL →
      (gst_tensor_filter_set_property_switch env filter prop_id value events).filter.modelFilename =
        filter.modelFilename) ∧
    (prop_id ≠ PROP_INPUT →
      (gst_tensor_filter_set_property_switch env filter prop_id value events).filter.inputDimension
        = filter.inputDimension ∧
      (gst_tensor_filter_set_property_switch env filter prop_id value events).filter.inputConfigured
        = filter.inputConfigured) ∧
    (prop_id ≠ PROP_INPUTTYPE →
      (gst_tensor_filter_set_property_switch env filter prop_id value events).filter.inputType =
        filter.inputType) ∧
    (prop_id ≠ PROP_OUTPUT →
      (gst_tensor_filter_set_property_switch env filter prop_id value events).filter.outputDimension
        = filter.outputDimension ∧
      (gst_tensor_filter_set_property_switch env filter prop_id value events).filter.outputConfigured
        = filter.outputConfigured) ∧
    (prop_id ≠ PROP_OUTPUTTYPE →
      (gst_tensor_filter_set_property_switch env filter prop_id value events).filter.outputType =
        filter.outputType) ∧
    (prop_id ≠ PROP_SILENT →
      (gst_tensor_filter_set_property_switch env filter prop_id value events).filter.silent =
        filter.silent) ∧
    (prop_id ≠ PROP_DEBUG →
      (gst_tensor_filter_set_property_switch env filter prop_id value events).filter.debug =
        filter.debug) ∧
    (gst_tensor_filter_set_property_switch env filter prop_id value events).filter.privateData =
      filter.privateData := by
  by_cases hq : (prop_id = PROP_SILENT ∨ prop_id = PROP_DEBUG ∨ prop_id = PROP_FRAMEWORK ∨
      prop_id = PROP_MODEL ∨ prop_id = PROP_INPUT ∨ prop_id = PROP_OUTPUT ∨
      prop_id = PROP_INPUTTYPE ∨ prop_id = PROP_OUTPUTTYPE)
  · rcases hq with rfl | rfl | rfl | rfl | rfl | rfl | rfl | rfl
    · rw [switch_silent]
      refine ⟨?_, ?_, ?_, ?_, ?_, ?_, ?_, ?_, ?_⟩ <;>
        first | rfl | (intro h; first | exact ⟨rfl, rfl⟩ | rfl | exact absurd rfl h)
    · rw [switch_debug]
      refine ⟨?_, ?_, ?_, ?_, ?_, ?_, ?_, ?_, ?_⟩ <;>
        first | rfl | (intro h; first | exact ⟨rfl, rfl⟩ | rfl | exact absurd rfl h)
    · rw [switch_framework]
      split_ifs <;> refine ⟨?_, ?_, ?_, ?_, ?_, ?_, ?_, ?_, ?_⟩ <;>
        first | rfl | (intro h; first | exact ⟨rfl, rfl⟩ | rfl | exact absurd rfl h)
    · rw [switch_model]
      split_ifs <;> refine ⟨?_, ?_, ?_, ?_, ?_, ?_, ?_, ?_, ?_⟩ <;>
        first | rfl | (intro h; first | exact ⟨rfl, rfl⟩ | rfl | exact absurd rfl h)
    · rw [switch_input]
      split_ifs <;> (try rw [fix_caps_filter]) <;>
        refine ⟨?_, ?_, ?_, ?_, ?_, ?_, ?_, ?_, ?_⟩ <;>
        first | rfl | (intro h; first | exact ⟨rfl, rfl⟩ | rfl | exact absurd rfl h)
    · rw [switch_output]
      split_ifs <;> (try rw [fix_caps_filter]) <;>
        refine ⟨?_, ?_, ?_, ?_, ?_, ?_, ?_, ?_, ?_⟩ <;>
        first | rfl | (intro h; first | exact ⟨rfl, rfl⟩ | rfl | exact absurd rfl h)
    · rw [switch_inputtype]
      split_ifs <;> (try rw [fix_caps_filter]) <;>
        refine ⟨?_, ?_, ?_, ?_, ?_, ?_, ?_, ?_, ?_⟩ <;>
        first | rfl | (intro h; first | exact ⟨rfl, rfl⟩ | rfl | exact absurd rfl h)
    · rw [switch_outputtype]
      split_ifs <;> (try rw [fix_caps_filter]) <;>
        refine ⟨?_, ?_, ?_, ?_, ?_, ?_, ?_, ?_, ?_⟩ <;>
        first | rfl | (intro h; first | exact ⟨rfl, rfl⟩ | rfl | exact absurd rfl h)
  · rw [switch_default env filter prop_id value _ hq]
    exact ⟨fun _ => ⟨rfl, rfl⟩, fun _ => rfl, fun _ => ⟨rfl, rfl⟩, fun _ => rfl,
      fun _ => ⟨rfl, rfl⟩, fun _ => rfl, fun _ => rfl, fun _ => rfl, rfl⟩

/-! ## Rank, negotiation hooks and independence of the directions -/

theorem get_rank_eq (dimension : tensor_dim) :
    gst_tensor_filter_get_rank dimension =
      if 0 < dimension 0 ∧ 0 < dimension 1 ∧ 0 < dimension 2 ∧ 0 < dimension 3 then some 4
      else none := by
  unfold gst_tensor_filter_get_rank NNS_TENSOR_RANK_LIMIT
  by_cases h0 : 0 < dimension 0 <;> by_cases h1 : 0 < dimension 1 <;>
    by_cases h2 : 0 < dimension 2 <;> by_cases h3 : 0 < dimension 3 <;>
    simp [gst_tensor_filter_get_rank_loop, h0, h1, h2, h3]

theorem exists_zero_axis_iff (dimension : tensor_dim) :
    (∃ i, dimension i = 0) ↔
      ¬ (0 < dimension 0 ∧ 0 < dimension 1 ∧ 0 < dimension 2 ∧ 0 < dimension 3) := by
  constructor
  · rintro ⟨i, hi⟩ ⟨h0, h1, h2, h3⟩
    fin_cases i <;> simp_all
  · intro h
    by_contra hne
    apply h
    have hpos : ∀ i, 0 < dimension i := fun i =>
      Nat.pos_of_ne_zero (fun hz => hne ⟨i, hz⟩)
    exact ⟨hpos 0, hpos 1, hpos 2, hpos 3⟩

theorem set_property_frame (env : Env) (filter : GstTensor_Filter) (prop_id : Nat)
    (value : GValue) :
    (prop_id ≠ PROP_FRAMEWORK →
      (gst_tensor_filter_set_property env filter prop_id value).filter.nnfw = filter.nnfw ∧
      (gst_tensor_filter_set_property env filter prop_id value).filter.fw = filter.fw) ∧
    (prop_id ≠ PROP_MODEL →
      (gst_tensor_filter_set_property env filter prop_id value).filter.modelFilename =
        filter.modelFilename) ∧
    (prop_id ≠ PROP_INPUT →
      (gst_tensor_filter_set_property env filter prop_id value).filter.inputDimension
        = filter.inputDimension ∧
      (gst_tensor_filter_set_property env filter prop_id value).filter.inputConfigured
        = filter.inputConfigured) ∧
    (prop_id ≠ PROP_INPUTTYPE →
      (gst_tensor_filter_set_property env filter prop_id value).filter.inputType =
        filter.inputType) ∧
    (prop_id ≠ PROP_OUTPUT →
      (gst_tensor_filter_set_property env filter prop_id value).filter.outputDimension
        = filter.outputDimension ∧
      (gst_tensor_filter_set_property env filter prop_id value).filter.outputConfigured
        = filter.outputConfigured) ∧
    (prop_id ≠ PROP_OUTPUTTYPE →
      (gst_tensor_filter_set_property env filter prop_id value).filter.outputType =
        filter.outputType) ∧
    (prop_id ≠ PROP_SILENT →
      (gst_tensor_filter_set_property env filter prop_id value).filter.silent =
        filter.silent) ∧
    (prop_id ≠ PROP_DEBUG →
      (gst_tensor_filter_set_property env filter prop_id value).filter.debug =
        filter.debug) ∧
    (gst_tensor_filter_set_property env filter prop_id value).filter.privateData =
      filter.privateData :=
  call_frame env filter prop_id value _

/-- C21: for every 4-axis dimension vector, `gst_tensor_filter_get_rank` fails
its assertion exactly when some axis is 0, and every rank it returns lies
between 1 and `NNS_TENSOR_RANK_LIMIT` = 4. -/
theorem get_rank_asserts_iff_zero_axis (dimension : tensor_dim) :
    NNS_TENSOR_RANK_LIMIT = 4 ∧
    (gst_tensor_filter_get_rank dimension = none ↔ ∃ i, dimension i = 0) ∧
    ((¬ ∃ i, dimension i = 0) →
      ∃ r, gst_tensor_filter_get_rank dimension = some r ∧
        1 ≤ r ∧ r ≤ (NNS_TENSOR_RANK_LIMIT : Int)) := by
  refine ⟨rfl, ?_, ?_⟩
  · rw [get_rank_eq, exists_zero_axis_iff]
    split_ifs with h
    · simp [h]
    · simp [h]
  · intro hne
    rw [exists_zero_axis_iff, not_not] at hne
    rw [get_rank_eq, if_pos hne]
    exact ⟨4, rfl, by decide, by decide⟩

/-- C30: the negotiation hooks accept nothing: for every element and all
capabilities, `gst_tensor_filter_set_caps` returns FALSE,
`gst_tensor_filter_transform_caps` and `gst_tensor_filter_fixate_caps` return
NULL and `gst_tensor_filter_configure_tensor` returns FALSE. -/
theorem negotiation_hooks_accept_nothing (filter : GstTensor_Filter) (direction : Bool)
    (caps other : Option GstCaps) :
    gst_tensor_filter_set_caps filter caps other = false ∧
    gst_tensor_filter_transform_caps filter direction caps other = none ∧
    gst_tensor_filter_fixate_caps filter direction caps other = none ∧
    gst_tensor_filter_configure_tensor caps filter = false :=
  ⟨rfl, rfl, rfl, rfl⟩

/-- C24: the two directions are independent: a call of
`gst_tensor_filter_set_property` on the input dimension or the input type,
accepted or rejected, leaves the output dimension, the output type and
`outputConfigured` unchanged; a call on the output dimension or the output type
leaves the input dimension, the input type and `inputConfigured` unchanged;
none of the four changes the framework (`nnfw`, `fw`) or the model path. -/
theorem directions_independent (env : Env) (filter : GstTensor_Filter) (value : GValue)
    (prop_id : Nat) :
    ((prop_id = PROP_INPUT ∨ prop_id = PROP_INPUTTYPE) →
      (gst_tensor_filter_set_property env filter prop_id value).filter.outputDimension =
        filter.outputDimension ∧
      (gst_tensor_filter_set_property env filter prop_id value).filter.outputType =
        filter.outputType ∧
      (gst_tensor_filter_set_property env filter prop_id value).filter.outputConfigured =
        filter.outputConfigured) ∧
    ((prop_id = PROP_OUTPUT ∨ prop_id = PROP_OUTPUTTYPE) →
      (gst_tensor_filter_set_property env filter prop_id value).filter.inputDimension =
        filter.inputDimension ∧
      (gst_tensor_filter_set_property env filter prop_id value).filter.inputType =
        filter.inputType ∧
      (gst_tensor_filter_set_property env filter prop_id value).filter.inputConfigured =
        filter.inputConfigured) ∧
    ((prop_id = PROP_INPUT ∨ prop_id = PROP_INPUTTYPE ∨ prop_id = PROP_OUTPUT ∨
        prop_id = PROP_OUTPUTTYPE) →
      (gst_tensor_filter_set_property env filter prop_id value).filter.nnfw = filter.nnfw ∧
      (gst_tensor_filter_set_property env filter prop_id value).filter.fw = filter.fw ∧
      (gst_tensor_filter_set_property env filter prop_id value).filter.modelFilename =
        filter.modelFilename) := by
  obtain ⟨hfw, hmodel, hin, hintype, hout, houttype, -, -, -⟩ :=
    set_property_frame env filter prop_id value
  refine ⟨?_, ?_, ?_⟩
  · intro h
    have h1 : prop_id ≠ PROP_OUTPUT := by rcases h with rfl | rfl <;> decide
    have h2 : prop_id ≠ PROP_OUTPUTTYPE := by rcases h with rfl | rfl <;> decide
    exact ⟨(hout h1).1, houttype h2, (hout h1).2⟩
  · intro h
    have h1 : prop_id ≠ PROP_INPUT := by rcases h with rfl | rfl <;> decide
    have h2 : prop_id ≠ PROP_INPUTTYPE := by rcases h with rfl | rfl <;> decide
    exact ⟨(hin h1).1, hintype h2, (hin h1).2⟩
  · intro h
    have h1 : prop_id ≠ PROP_FRAMEWORK := by rcases h with rfl | rfl | rfl | rfl <;> decide
    have h2 : prop_id ≠ PROP_MODEL := by rcases h with rfl | rfl | rfl | rfl <;> decide
    exact ⟨(hfw h1).1, (hfw h1).2, hmodel h2⟩

/-! ## The silent and debug properties -/

theorem fix_caps_aborted_congr (env : Env) (f g : GstTensor_Filter) (isInput : Bool)
    (e1 e2 : List Event)
    (h1 : f.inputType = g.inputType) (h2 : f.inputDimension = g.inputDimension)
    (h3 : f.outputType = g.outputType) (h4 : f.outputDimension = g.outputDimension) :
    (gst_tensor_filter_fix_caps env f isInput e1).aborted =
      (gst_tensor_filter_fix_caps env g isInput e2).aborted := by
  unfold gst_tensor_filter_fix_caps
  simp only [h1, h2, h3, h4]
  split
  · rfl
  · split_ifs <;> rfl

theorem switch_aborted_congr (env : Env) (f g : GstTensor_Filter) (prop_id : Nat)
    (value : GValue) (e1 e2 : List Event)
    (h1 : f.nnfw = g.nnfw) (h2 : f.modelFilename = g.modelFilename)
    (h3 : f.inputConfigured = g.inputConfigured) (h4 : f.outputConfigured = g.outputConfigured)
    (h5 : f.inputDimension = g.inputDimension) (h6 : f.inputType = g.inputType)
    (h7 : f.outputDimension = g.outputDimension) (h8 : f.outputType = g.outputType) :
    (gst_tensor_filter_set_property_switch env f prop_id value e1).aborted =
      (gst_tensor_filter_set_property_switch env g prop_id value e2).aborted := by
  by_cases hq : (prop_id = PROP_SILENT ∨ prop_id = PROP_DEBUG ∨ prop_id = PROP_FRAMEWORK ∨
      prop_id = PROP_MODEL ∨ prop_id = PROP_INPUT ∨ prop_id = PROP_OUTPUT ∨
      prop_id = PROP_INPUTTYPE ∨ prop_id = PROP_OUTPUTTYPE)
  · rcases hq with rfl | rfl | rfl | rfl | rfl | rfl | rfl | rfl
    · rfl
    · rfl
    · rw [switch_framework, switch_framework]
      simp only [h1]
      split_ifs <;> rfl
    · rw [switch_model, switch_model]
      simp only [h2]
      split_ifs <;> rfl
    · rw [switch_input, switch_input]
      simp only [h3, h5, h6]
      split_ifs <;> first | rfl | (apply fix_caps_aborted_congr <;> first | rfl | assumption)
    · rw [switch_output, switch_output]
      simp only [h4, h7, h8]
      split_ifs <;> first | rfl | (apply fix_caps_aborted_congr <;> first | rfl | assumption)
    · rw [switch_inputtype, switch_inputtype]
      simp only [h3, h5, h6]
      split_ifs <;> first | rfl | (apply fix_caps_aborted_congr <;> first | rfl | assumption)
    · rw [switch_outputtype, switch_outputtype]
      simp only [h4, h7, h8]
      split_ifs <;> first | rfl | (apply fix_caps_aborted_congr <;> first | rfl | assumption)
  · rw [switch_default env f prop_id value _ hq, switch_default env g prop_id value _ hq]
    rfl

/-- C25: the silent and debug properties may be set in any state: the call is
accepted, the element after it is the element before it with that one boolean
field replaced (so every write-once field and configured flag is unchanged),
`gst_tensor_filter_get_property` then returns the value, and every later
`gst_tensor_filter_set_property` call is accepted after it exactly when it
would have been accepted without it. -/
theorem silent_debug_change_nothing_else (env : Env) (filter : GstTensor_Filter)
    (value : GValue) :
    ((gst_tensor_filter_set_property env filter PROP_SILENT value).aborted = false ∧
      (gst_tensor_filter_set_property env filter PROP_SILENT value).filter =
        { filter with silent := value.b } ∧
      gst_tensor_filter_get_property
        (gst_tensor_filter_set_property env filter PROP_SILENT value).filter PROP_SILENT =
          some (PropertyValue.boolean value.b) ∧
      ∀ (prop_id : Nat) (later : GValue),
        (gst_tensor_filter_set_property env
          (gst_tensor_filter_set_property env filter PROP_SILENT value).filter
          prop_id later).aborted =
        (gst_tensor_filter_set_property env filter prop_id later).aborted) ∧
    ((gst_tensor_filter_set_property env filter PROP_DEBUG value).aborted = false ∧
      (gst_tensor_filter_set_property env filter PROP_DEBUG value).filter =
        { filter with debug := value.b } ∧
      gst_tensor_filter_get_property
        (gst_tensor_filter_set_property env filter PROP_DEBUG value).filter PROP_DEBUG =
          some (PropertyValue.boolean value.b) ∧
      ∀ (prop_id : Nat) (later : GValue),
        (gst_tensor_filter_set_property env
          (gst_tensor_filter_set_property env filter PROP_DEBUG value).filter
          prop_id later).aborted =
        (gst_tensor_filter_set_property env filter prop_id later).aborted) := by
  refine ⟨⟨rfl, rfl, rfl, ?_⟩, ⟨rfl, rfl, rfl, ?_⟩⟩
  · intro prop_id later
    exact switch_aborted_congr env _ _ prop_id later _ _ rfl rfl rfl rfl rfl rfl rfl rfl
  · intro prop_id later
    exact switch_aborted_congr env _ _ prop_id later _ _ rfl rfl rfl rfl rfl rfl rfl rfl

/-! ## The framework identifier over accepted calls -/

theorem supported_ne_none (nnfw : Int) (h : tensor_filter_supported nnfw ≠ none) :
    nnfw = _T_F_CUSTOM ∨ nnfw = _T_F_TENSORFLOW_LITE := by
  unfold tensor_filter_supported at h
  split_ifs at h with h0 h1 h2
  · exact absurd rfl h
  · exact Or.inl h1
  · exact Or.inr h2
  all_goals exact absurd rfl h

theorem accepted_step_framework (env : Env) (filter : GstTensor_Filter) (prop_id : Nat)
    (value : GValue) (hinv : framework_consistent filter)
    (hok : (gst_tensor_filter_set_property env filter prop_id value).aborted = false) :
    framework_consistent (gst_tensor_filter_set_property env filter prop_id value).filter := by
  by_cases hq : prop_id = PROP_FRAMEWORK
  · subst hq
    unfold gst_tensor_filter_set_property at hok ⊢
    rw [switch_framework] at hok ⊢
    split_ifs at hok ⊢ with h1 h2 h3 h4 h5
    all_goals first
      | (simp [Run.abort] at hok; done)
      | exact Or.inr ⟨supported_ne_none _ h5, rfl, h5⟩
  · obtain ⟨hfw, -⟩ := set_property_frame env filter prop_id value
    obtain ⟨e1, e2⟩ := hfw hq
    unfold framework_consistent
    rw [e1, e2]
    exact hinv

theorem set_properties_framework (env : Env) (calls : List (Nat × GValue)) :
    ∀ (filter final : GstTensor_Filter) (events : List Event),
    framework_consistent filter →
    set_properties env filter calls = some (final, events) →
    framework_consistent final := by
  induction calls with
  | nil =>
    intro filter final events hinv h
    simp only [set_properties, Option.some.injEq, Prod.mk.injEq] at h
    obtain ⟨rfl, -⟩ := h
    exact hinv
  | cons call rest ih =>
    intro filter final events hinv h
    obtain ⟨hok, later, hrest, -⟩ := (set_properties_cons _ _ _ _ _ _).mp h
    exact ih _ _ _ (accepted_step_framework env filter call.1 call.2 hinv hok) hrest

theorem framework_consistent_range (filter : GstTensor_Filter)
    (h : framework_consistent filter) :
    filter.nnfw ≠ -1 ∧ 0 ≤ filter.nnfw ∧ filter.nnfw < (nnfw_names.length : Int) ∧
    filter.nnfw ≤ _T_F_CAFFE2 := by
  have hlen : (nnfw_names.length : Int) = 5 := rfl
  rw [hlen]
  unfold framework_consistent at h
  unfold _T_F_CAFFE2
  unfold _T_F_UNDEFINED _T_F_CUSTOM _T_F_TENSORFLOW_LITE at h
  rcases h with h | ⟨h | h, -⟩ <;> omega

/-- C29: in every element state reached from `gst_tensor_filter_init` by
accepted `set_property` calls, the framework identifier is `_T_F_UNDEFINED`,
or it is `_T_F_CUSTOM` or `_T_F_TENSORFLOW_LITE` (the identifiers with a
non-NULL entry in `tensor_filter_supported`) and `fw` is that entry; the
identifier is never -1 and lies within the tables `nnfw_names` and
`tensor_filter_supported` (0 to `_T_F_CAFFE2`). -/
theorem framework_identifier_consistent (env : Env) (calls : List (Nat × GValue))
    (final : GstTensor_Filter) (events : List Event)
    (h : set_properties env fresh calls = some (final, events)) :
    framework_consistent final ∧
    final.nnfw ≠ -1 ∧ 0 ≤ final.nnfw ∧ final.nnfw < (nnfw_names.length : Int) ∧
    final.nnfw ≤ _T_F_CAFFE2 :=
  ⟨set_properties_framework env calls fresh final events (Or.inl rfl) h,
    framework_consistent_range final
      (set_properties_framework env calls fresh final events (Or.inl rfl) h)⟩

/-- C29 on the calls of the example launch line: they are accepted, the
framework identifier ends as `_T_F_TENSORFLOW_LITE` and `fw` as the entry
`NNS_support_tensorflow_lite` of the table. -/
theorem framework_identifier_consistent_witness :
    ∃ final events, set_properties example_env fresh example_calls = some (final, events) ∧
      final.nnfw = _T_F_TENSORFLOW_LITE ∧
      final.fw = some NNS_support_tensorflow_lite ∧
      framework_consistent final ∧
      final.nnfw ≠ -1 ∧ 0 ≤ final.nnfw ∧ final.nnfw < (nnfw_names.length : Int) ∧
      final.nnfw ≤ _T_F_CAFFE2 := by
  refine ⟨_, _, rfl, rfl, rfl, ?_⟩
  exact framework_identifier_consistent example_env example_calls _ _ rfl

/-! ## What a rejected call leaves behind -/

theorem set_input_type_end (filter : GstTensor_Filter) (h : filter.inputType = _NNS_END) :
    { filter with inputType := _NNS_END } = filter := by
  cases filter
  simp only at h
  subst h
  rfl

theorem set_output_type_end (filter : GstTensor_Filter) (h : filter.outputType = _NNS_END) :
    { filter with outputType := _NNS_END } = filter := by
  cases filter
  simp only at h
  subst h
  rfl

theorem switch_rejected_dimension (env : Env) (filter : GstTensor_Filter) (value : GValue)
    (events : List Event) (hw : ¬ well_formed_dimension value.s) :
    ((gst_tensor_filter_set_property_switch env filter PROP_INPUT value events).filter =
        { filter with inputDimension :=
            (gst_tensor_filter_set_property_switch env filter PROP_INPUT value
              events).filter.inputDimension } ∧
      (filter.inputConfigured = false →
        (gst_tensor_filter_set_property_switch env filter PROP_INPUT value
          events).filter.inputDimension =
            (get_tensor_dimension value.s filter.inputDimension).2)) ∧
    ((gst_tensor_filter_set_property_switch env filter PROP_OUTPUT value events).filter =
        { filter with outputDimension :=
            (gst_tensor_filter_set_property_switch env filter PROP_OUTPUT value
              events).filter.outputDimension } ∧
      (filter.outputConfigured = false →
        (gst_tensor_filter_set_property_switch env filter PROP_OUTPUT value
          events).filter.outputDimension =
            (get_tensor_dimension value.s filter.outputDimension).2)) := by
  have h1 := mt (get_tensor_dimension_rank_ok value.s filter.inputDimension).mp hw
  have h2 := mt (get_tensor_dimension_rank_ok value.s filter.outputDimension).mp hw
  constructor
  · rw [switch_input]
    split_ifs <;> first
      | contradiction
      | exact ⟨rfl, fun _ => rfl⟩
      | exact ⟨rfl, fun hc => by contradiction⟩
  · rw [switch_output]
    split_ifs <;> first
      | contradiction
      | exact ⟨rfl, fun _ => rfl⟩
      | exact ⟨rfl, fun hc => by contradiction⟩

theorem switch_dimension_unset_accepted (env : Env) (filter : GstTensor_Filter)
    (value : GValue) (events : List Event) (hw : well_formed_dimension value.s) :
    (filter.inputConfigured = false → filter.inputType = _NNS_END →
      (gst_tensor_filter_set_property_switch env filter PROP_INPUT value events).aborted =
        false) ∧
    (filter.outputConfigured = false → filter.outputType = _NNS_END →
      (gst_tensor_filter_set_property_switch env filter PROP_OUTPUT value events).aborted =
        false) := by
  have h1 := (get_tensor_dimension_rank_ok value.s filter.inputDimension).mpr hw
  have h2 := (get_tensor_dimension_rank_ok value.s filter.outputDimension).mpr hw
  constructor
  · intro hc ht
    rw [switch_input, if_neg (not_not.mpr hc), if_neg (not_not.mpr h1),
      if_neg (not_not.mpr ht)]
    rfl
  · intro hc ht
    rw [switch_output, if_neg (not_not.mpr hc), if_neg (not_not.mpr h2),
      if_neg (not_not.mpr ht)]
    rfl

theorem switch_rejected_type (env : Env) (filter : GstTensor_Filter) (value : GValue)
    (events : List Event) (hn : value.s ∉ canonical_type_names) :
    (gst_tensor_filter_set_property_switch env filter PROP_INPUTTYPE value events).filter =
      filter ∧
    (gst_tensor_filter_set_property_switch env filter PROP_OUTPUTTYPE value events).filter =
      filter := by
  have ht := get_tensor_type_unknown value.s hn
  constructor
  · rw [switch_inputtype]
    split_ifs <;> first
      | contradiction
      | rfl
      | (rw [ht]; exact set_input_type_end filter (by assumption))
  · rw [switch_outputtype]
    split_ifs <;> first
      | contradiction
      | rfl
      | (rw [ht]; exact set_output_type_end filter (by assumption))

theorem switch_rejected_framework (env : Env) (filter : GstTensor_Filter) (value : GValue)
    (events : List Event) (hu : filter.nnfw = _T_F_UNDEFINED)
    (h : (gst_tensor_filter_set_property_switch env filter PROP_FRAMEWORK value
      events).aborted = true) :
    (gst_tensor_filter_set_property_switch env filter PROP_FRAMEWORK value events).filter.nnfw =
      find_key_strv nnfw_names value.s ∧
    ((gst_tensor_filter_set_property_switch env filter PROP_FRAMEWORK value events).filter =
        { filter with nnfw := find_key_strv nnfw_names value.s } ∨
      (gst_tensor_filter_set_property_switch env filter PROP_FRAMEWORK value events).filter =
        { filter with nnfw := find_key_strv nnfw_names value.s, fw := none }) ∧
    (value.s ∉ nnfw_names →
      (gst_tensor_filter_set_property_switch env filter PROP_FRAMEWORK value events).filter =
        { filter with nnfw := -1 }) := by
  refine ⟨?_, ?_, ?_⟩
  · rw [switch_framework]
    split_ifs <;> first | rfl | contradiction
  · rw [switch_framework] at h ⊢
    rw [if_neg (not_not.mpr hu)] at h ⊢
    split_ifs at h ⊢ <;> first
      | (simp [Run.done] at h; done)
      | exact Or.inl rfl
      | (right
         rename_i hs
         rw [not_not.mp hs]
         rfl)
  · intro hn
    have hk := find_key_strv_absent nnfw_names value.s hn
    rw [switch_framework, if_neg (not_not.mpr hu), if_pos (not_not.mpr hk), hk]
    rfl

theorem switch_rejected_model (env : Env) (filter : GstTensor_Filter) (value : GValue)
    (events : List Event) (hu : filter.modelFilename = none)
    (h : (gst_tensor_filter_set_property_switch env filter PROP_MODEL value events).aborted =
      true) :
    g_file_test_is_regular env value.s = false ∧
    (gst_tensor_filter_set_property_switch env filter PROP_MODEL value events).filter =
      { filter with modelFilename := some value.s } := by
  rw [switch_model] at h ⊢
  rw [if_neg (not_not.mpr hu)] at h ⊢
  by_cases hreg : g_file_test_is_regular env value.s = true
  · rw [if_neg (not_not.mpr hreg)] at h
    simp [Run.done] at h
  · rw [if_pos hreg]
    exact ⟨by simpa using hreg, rfl⟩

/-- C28 as stated fails: on a fresh element, setting the framework to the
unknown name "bogus" is rejected and leaves the identifier -1 in `nnfw`, so the
set of "tensorflow-lite", accepted on a fresh element, is rejected after it;
setting the model to the directory "models" is rejected and leaves that path
in `modelFilename`, so the set of the regular file "model.tflite", accepted on
a fresh element, is rejected after it. -/
theorem rejected_call_not_atomic :
    (gst_tensor_filter_set_property example_env fresh PROP_FRAMEWORK
      { b := false, s := "bogus" }).aborted = true ∧
    fresh.nnfw = _T_F_UNDEFINED ∧
    (gst_tensor_filter_set_property example_env fresh PROP_FRAMEWORK
      { b := false, s := "bogus" }).filter.nnfw = -1 ∧
    (gst_tensor_filter_set_property example_env fresh PROP_FRAMEWORK
      { b := false, s := "tensorflow-lite" }).aborted = false ∧
    (gst_tensor_filter_set_property example_env
      (gst_tensor_filter_set_property example_env fresh PROP_FRAMEWORK
        { b := false, s := "bogus" }).filter
      PROP_FRAMEWORK { b := false, s := "tensorflow-lite" }).aborted = true ∧
    (gst_tensor_filter_set_property example_env fresh PROP_MODEL
      { b := false, s := "models" }).aborted = true ∧
    fresh.modelFilename = none ∧
    (gst_tensor_filter_set_property example_env fresh PROP_MODEL
      { b := false, s := "models" }).filter.modelFilename = some "models" ∧
    (gst_tensor_filter_set_property example_env fresh PROP_MODEL
      { b := false, s := "model.tflite" }).aborted = false ∧
    (gst_tensor_filter_set_property example_env
      (gst_tensor_filter_set_property example_env fresh PROP_MODEL
        { b := false, s := "models" }).filter
      PROP_MODEL { b := false, s := "model.tflite" }).aborted = true := by
  decide

/-- C28, as the code has it: a rejected `set_property` call changes no field
other than those of the property it sets. A call rejected for an unknown type
name leaves every field as it was. A call rejected for a malformed dimension
string leaves every field other than the dimension array of that direction as
it was; the array holds what `get_tensor_dimension` left in it, the configured
flag is untouched, and on an element whose dimension and type of that
direction are unset a later set of a well-formed string is accepted. A call
rejected on an unset framework leaves the looked-up identifier in `nnfw` (-1
for an unknown name, nothing else changed) and `fw` as it was or NULL, and
when that identifier is not `_T_F_UNDEFINED` every later set of the framework
is rejected. A call rejected on an unset model (the path is then not a regular
file) leaves the rejected path in `modelFilename`, every other field as it
was, and every later set of the model is rejected. -/
theorem rejected_call_effect (env : Env) (filter : GstTensor_Filter) (prop_id : Nat)
    (value later : GValue)
    (h : (gst_tensor_filter_set_property env filter prop_id value).aborted = true) :
    differs_only_in prop_id filter
      (gst_tensor_filter_set_property env filter prop_id value).filter ∧
    ((prop_id = PROP_INPUTTYPE ∨ prop_id = PROP_OUTPUTTYPE) →
      value.s ∉ canonical_type_names →
      (gst_tensor_filter_set_property env filter prop_id value).filter = filter) ∧
    (prop_id = PROP_INPUT → ¬ well_formed_dimension value.s →
      (gst_tensor_filter_set_property env filter prop_id value).filter =
        { filter with inputDimension :=
            (gst_tensor_filter_set_property env filter prop_id value).filter.inputDimension } ∧
      (filter.inputConfigured = false →
        (gst_tensor_filter_set_property env filter prop_id value).filter.inputDimension =
          (get_tensor_dimension value.s filter.inputDimension).2) ∧
      (filter.inputConfigured = false → filter.inputType = _NNS_END →
        well_formed_dimension later.s →
        (gst_tensor_filter_set_property env
          (gst_tensor_filter_set_property env filter prop_id value).filter
          PROP_INPUT later).aborted = false)) ∧
    (prop_id = PROP_OUTPUT → ¬ well_formed_dimension value.s →
      (gst_tensor_filter_set_property env filter prop_id value).filter =
        { filter with outputDimension :=
            (gst_tensor_filter_set_property env filter prop_id value).filter.outputDimension } ∧
      (filter.outputConfigured = false →
        (gst_tensor_filter_set_property env filter prop_id value).filter.outputDimension =
          (get_tensor_dimension value.s filter.outputDimension).2) ∧
      (filter.outputConfigured = false → filter.outputType = _NNS_END →
        well_formed_dimension later.s →
        (gst_tensor_filter_set_property env
          (gst_tensor_filter_set_property env filter prop_id value).filter
          PROP_OUTPUT later).aborted = false)) ∧
    (prop_id = PROP_FRAMEWORK → filter.nnfw = _T_F_UNDEFINED →
      (gst_tensor_filter_set_property env filter prop_id value).filter.nnfw =
        find_key_strv nnfw_names value.s ∧
      ((gst_tensor_filter_set_property env filter prop_id value).filter =
          { filter with nnfw := find_key_strv nnfw_names value.s } ∨
        (gst_tensor_filter_set_property env filter prop_id value).filter =
          { filter with nnfw := find_key_strv nnfw_names value.s, fw := none }) ∧
      (value.s ∉ nnfw_names →
        (gst_tensor_filter_set_property env filter prop_id value).filter =
          { filter with nnfw := -1 }) ∧
      (find_key_strv nnfw_names value.s ≠ _T_F_UNDEFINED →
        (gst_tensor_filter_set_property env
          (gst_tensor_filter_set_property env filter prop_id value).filter
          PROP_FRAMEWORK later).aborted = true)) ∧
    (prop_id = PROP_MODEL → filter.modelFilename = none →
      g_file_test_is_regular env value.s = false ∧
      (gst_tensor_filter_set_property env filter prop_id value).filter =
        { filter with modelFilename := some value.s } ∧
      (gst_tensor_filter_set_property env
        (gst_tensor_filter_set_property env filter prop_id value).filter
        PROP_MODEL later).aborted = true) := by
  refine ⟨set_property_frame env filter prop_id value, ?_, ?_, ?_, ?_, ?_⟩
  · intro hq hn
    rcases hq with rfl | rfl
    · exact (switch_rejected_type env filter value _ hn).1
    · exact (switch_rejected_type env filter value _ hn).2
  · intro hq hw
    subst hq
    have hres : (gst_tensor_filter_set_property env filter PROP_INPUT value).filter =
          { filter with inputDimension :=
              (gst_tensor_filter_set_property env filter PROP_INPUT value).filter.inputDimension } ∧
        (filter.inputConfigured = false →
          (gst_tensor_filter_set_property env filter PROP_INPUT value).filter.inputDimension =
            (get_tensor_dimension value.s filter.inputDimension).2) :=
      (switch_rejected_dimension env filter value _ hw).1
    refine ⟨hres.1, hres.2, ?_⟩
    intro hc ht hwl
    have e1 := congrArg GstTensor_Filter.inputConfigured hres.1
    have e2 := congrArg GstTensor_Filter.inputType hres.1
    exact (switch_dimension_unset_accepted env _ later _ hwl).1 (e1.trans hc) (e2.trans ht)
  · intro hq hw
    subst hq
    have hres : (gst_tensor_filter_set_property env filter PROP_OUTPUT value).filter =
          { filter with outputDimension :=
              (gst_tensor_filter_set_property env filter PROP_OUTPUT value).filter.outputDimension } ∧
        (filter.outputConfigured = false →
          (gst_tensor_filter_set_property env filter PROP_OUTPUT value).filter.outputDimension =
            (get_tensor_dimension value.s filter.outputDimension).2) :=
      (switch_rejected_dimension env filter value _ hw).2
    refine ⟨hres.1, hres.2, ?_⟩
    intro hc ht hwl
    have e1 := congrArg GstTensor_Filter.outputConfigured hres.1
    have e2 := congrArg GstTensor_Filter.outputType hres.1
    exact (switch_dimension_unset_accepted env _ later _ hwl).2 (e1.trans hc) (e2.trans ht)
  · intro hq hu
    subst hq
    have hres : (gst_tensor_filter_set_property env filter PROP_FRAMEWORK value).filter.nnfw =
          find_key_strv nnfw_names value.s ∧
        ((gst_tensor_filter_set_property env filter PROP_FRAMEWORK value).filter =
            { filter with nnfw := find_key_strv nnfw_names value.s } ∨
          (gst_tensor_filter_set_property env filter PROP_FRAMEWORK value).filter =
            { filter with nnfw := find_key_strv nnfw_names value.s, fw := none }) ∧
        (value.s ∉ nnfw_names →
          (gst_tensor_filter_set_property env filter PROP_FRAMEWORK value).filter =
            { filter with nnfw := -1 }) :=
      switch_rejected_framework env filter value _ hu h
    refine ⟨hres.1, hres.2.1, hres.2.2, ?_⟩
    intro hk
    refine (already_set_rejected env _ PROP_FRAMEWORK later (Or.inl ⟨rfl, ?_⟩)).1
    exact fun e => hk (hres.1.symm.trans e)
  · intro hq hu
    subst hq
    have hres : g_file_test_is_regular env value.s = false ∧
        (gst_tensor_filter_set_property env filter PROP_MODEL value).filter =
          { filter with modelFilename := some value.s } :=
      switch_rejected_model env filter value _ hu h
    obtain ⟨hreg, hres⟩ := hres
    refine ⟨hreg, hres, ?_⟩
    refine (already_set_rejected env _ PROP_MODEL later (Or.inr (Or.inl ⟨rfl, ?_⟩))).1
    intro hne
    have hm := congrArg GstTensor_Filter.modelFilename hres
    exact Option.noConfusion (hm.symm.trans hne)

/-- C28 at concrete inputs, on a fresh element. The rejected framework name
"bogus" leaves `nnfw` = -1, nothing else changed, and the later set of
"tensorflow-lite" is rejected. The rejected name "tensorflow" (registered, no
back-end) leaves `nnfw` = `_T_F_TENSORFLOW` and changes no field of another
property. The rejected dimension string "3:0" leaves the configured flag FALSE
and the later set of "5" is accepted. The rejected type name "UINT8" leaves
the element as it was. The rejected model path "models" (a directory) is left
in `modelFilename` and the later set of "model.tflite" is rejected. -/
theorem rejected_call_effect_witness :
    (gst_tensor_filter_set_property example_env fresh PROP_FRAMEWORK
      { b := false, s := "bogus" }).aborted = true ∧
    (gst_tensor_filter_set_property example_env fresh PROP_FRAMEWORK
      { b := false, s := "bogus" }).filter = { fresh with nnfw := -1 } ∧
    (gst_tensor_filter_set_property example_env
      (gst_tensor_filter_set_property example_env fresh PROP_FRAMEWORK
        { b := false, s := "bogus" }).filter
      PROP_FRAMEWORK { b := false, s := "tensorflow-lite" }).aborted = true ∧
    (gst_tensor_filter_set_property example_env fresh PROP_FRAMEWORK
      { b := false, s := "tensorflow" }).aborted = true ∧
    (gst_tensor_filter_set_property example_env fresh PROP_FRAMEWORK
      { b := false, s := "tensorflow" }).filter.nnfw = _T_F_TENSORFLOW ∧
    differs_only_in PROP_FRAMEWORK fresh
      (gst_tensor_filter_set_property example_env fresh PROP_FRAMEWORK
        { b := false, s := "tensorflow" }).filter ∧
    (gst_tensor_filter_set_property example_env fresh PROP_INPUT
      { b := false, s := "3:0" }).aborted = true ∧
    (gst_tensor_filter_set_property example_env fresh PROP_INPUT
      { b := false, s := "3:0" }).filter.inputConfigured = false ∧
    (gst_tensor_filter_set_property example_env
      (gst_tensor_filter_set_property example_env fresh PROP_INPUT
        { b := false, s := "3:0" }).filter
      PROP_INPUT { b := false, s := "5" }).aborted = false ∧
    (gst_tensor_filter_set_property example_env fresh PROP_OUTPUTTYPE
      { b := false, s := "UINT8" }).aborted = true ∧
    (gst_tensor_filter_set_property example_env fresh PROP_OUTPUTTYPE
      { b := false, s := "UINT8" }).filter = fresh ∧
    (gst_tensor_filter_set_property example_env fresh PROP_MODEL
      { b := false, s := "models" }).aborted = true ∧
    (gst_tensor_filter_set_property example_env fresh PROP_MODEL
      { b := false, s := "models" }).filter = { fresh with modelFilename := some "models" } ∧
    (gst_tensor_filter_set_property example_env
      (gst_tensor_filter_set_property example_env fresh PROP_MODEL
        { b := false, s := "models" }).filter
      PROP_MODEL { b := false, s := "model.tflite" }).aborted = true :=
  ⟨rfl,
    ((rejected_call_effect example_env fresh PROP_FRAMEWORK { b := false, s := "bogus" }
      { b := false, s := "tensorflow-lite" } rfl).2.2.2.2.1 rfl rfl).2.2.1 (by decide),
    ((rejected_call_effect example_env fresh PROP_FRAMEWORK { b := false, s := "bogus" }
      { b := false, s := "tensorflow-lite" } rfl).2.2.2.2.1 rfl rfl).2.2.2 (by decide),
    rfl,
    (((rejected_call_effect example_env fresh PROP_FRAMEWORK { b := false, s := "tensorflow" }
      { b := false, s := "" } rfl).2.2.2.2.1 rfl rfl).1).trans (by decide),
    (rejected_call_effect example_env fresh PROP_FRAMEWORK { b := false, s := "tensorflow" }
      { b := false, s := "" } rfl).1,
    rfl,
    (congrArg GstTensor_Filter.inputConfigured
      ((rejected_call_effect example_env fresh PROP_INPUT { b := false, s := "3:0" }
        { b := false, s := "5" } rfl).2.2.1 rfl (by decide)).1).trans rfl,
    ((rejected_call_effect example_env fresh PROP_INPUT { b := false, s := "3:0" }
      { b := false, s := "5" } rfl).2.2.1 rfl (by decide)).2.2 rfl rfl (by decide),
    rfl,
    (rejected_call_effect example_env fresh PROP_OUTPUTTYPE { b := false, s := "UINT8" }
      { b := false, s := "" } rfl).2.1 (Or.inr rfl) (by decide),
    rfl,
    ((rejected_call_effect example_env fresh PROP_MODEL { b := false, s := "models" }
      { b := false, s := "model.tflite" } rfl).2.2.2.2.2 rfl rfl).2.1,
    ((rejected_call_effect example_env fresh PROP_MODEL { b := false, s := "models" }
      { b := false, s := "model.tflite" } rfl).2.2.2.2.2 rfl rfl).2.2⟩

/-! ## The capability descriptor and the installed properties -/

/-- C26, what the code does: for a direction whose dimension d has all axes
at least 1 (and below 2^31, so that they are the integers the descriptor
holds), `gst_tensor_filter_fix_caps` hands to `gst_pad_set_caps` the
intersection of the pad's capability with the descriptor "other/tensor" whose
fields are, in order, rank = 4 whatever d is, type = the canonical name of the
direction's type, dim1..dim4 = d1..d4, and nothing else (no frame rate). The
rank rule of the specification gives 4 only when the last axis exceeds 1. -/
theorem fix_caps_descriptor_rank_is_limit (env : Env) (filter : GstTensor_Filter)
    (isInput : Bool) (events : List Event) (t : tensor_type) (d : tensor_dim)
    (ht : t = if isInput = true then filter.inputType else filter.outputType)
    (hd : d = if isInput = true then filter.inputDimension else filter.outputDimension)
    (hpos : ∀ i, 0 < d i) (hint : ∀ i, d i < 2 ^ 31) :
    (∃ rest, (gst_tensor_filter_fix_caps env filter isInput events).events =
      events ++ Event.pad_set_caps isInput
        (env.gst_caps_intersect_full (env.gst_pad_get_current_caps isInput)
          (some [{ name := "other/tensor",
                   fields := [("rank", CapsValue.int 4),
                     ("type", CapsValue.string (tensor_element_typename t)),
                     ("dim1", CapsValue.int (d 0)),
                     ("dim2", CapsValue.int (d 1)),
                     ("dim3", CapsValue.int (d 2)),
                     ("dim4", CapsValue.int (d 3))] }])) :: rest) ∧
    (rank_of_spec d = 4 ↔ 1 < d 3) := by
  constructor
  · have hr : gst_tensor_filter_get_rank d = some 4 := by
      rw [get_rank_eq, if_pos ⟨hpos 0, hpos 1, hpos 2, hpos 3⟩]
    unfold gst_tensor_filter_fix_caps
    simp only [← ht, ← hd, hr]
    split_ifs
    · exact ⟨[Event.element_error_negotiation], by simp [Run.abort, fix_caps_tmp, gst_caps_new_simple]⟩
    · exact ⟨[], by simp [Run.done, fix_caps_tmp, gst_caps_new_simple]⟩
  · unfold rank_of_spec
    split_ifs <;> simp_all

/-- C26 at the failing input: with the input type uint8 and the input dimension
[5,1,1,1] (rank 1 by the rank rule), the descriptor handed to
`gst_pad_set_caps` has rank 4, type "uint8" and dim1..dim4 = 5, 1, 1, 1. -/
theorem fix_caps_descriptor_rank_is_limit_witness :
    rank_of_spec (mkDim 5 1 1 1) = 1 ∧
    (∃ rest, (gst_tensor_filter_fix_caps example_env
        { fresh with inputType := _NNS_UINT8, inputDimension := mkDim 5 1 1 1 } true []).events =
      [] ++ Event.pad_set_caps true
        (example_env.gst_caps_intersect_full (example_env.gst_pad_get_current_caps true)
          (some [{ name := "other/tensor",
                   fields := [("rank", CapsValue.int 4),
                     ("type", CapsValue.string (tensor_element_typename _NNS_UINT8)),
                     ("dim1", CapsValue.int (mkDim 5 1 1 1 0)),
                     ("dim2", CapsValue.int (mkDim 5 1 1 1 1)),
                     ("dim3", CapsValue.int (mkDim 5 1 1 1 2)),
                     ("dim4", CapsValue.int (mkDim 5 1 1 1 3))] }])) :: rest) ∧
    (rank_of_spec (mkDim 5 1 1 1) = 4 ↔ 1 < mkDim 5 1 1 1 3) :=
  ⟨by decide,
    fix_caps_descriptor_rank_is_limit example_env
      { fresh with inputType := _NNS_UINT8, inputDimension := mkDim 5 1 1 1 } true []
      _NNS_UINT8 (mkDim 5 1 1 1) rfl rfl (by decide) (by decide)⟩

/-- C27, what the code does: `gst_tensor_filter_class_init` installs all
eight properties, but only silent and debug with G_PARAM_READWRITE; framework,
model, input, inputtype, output and outputtype are installed with
G_PARAM_READABLE alone, so `g_object_set_property` refuses a set of any of the
six in every state and never calls `gst_tensor_filter_set_property` for it. A
set of silent or debug reaches the setter. The element specification of the
two dimension arrays bounds an axis to [1, 65535]. -/
theorem write_once_properties_not_writable :
    (∀ name ∈ property_names, ∃ pspec ∈ gst_tensor_filter_class_init, pspec.name = name) ∧
    (∀ pspec ∈ gst_tensor_filter_class_init,
      is_writable pspec.flags = true ↔ (pspec.name = "silent" ∨ pspec.name = "debug")) ∧
    (∀ (env : Env) (filter : GstTensor_Filter) (value : GValue),
      ∀ name ∈ ["framework", "model", "input", "inputtype", "output", "outputtype"],
        g_object_set_property env filter name value = none) ∧
    (∀ (env : Env) (filter : GstTensor_Filter) (value : GValue),
      g_object_set_property env filter "silent" value =
        some (gst_tensor_filter_set_property env filter PROP_SILENT value) ∧
      g_object_set_property env filter "debug" value =
        some (gst_tensor_filter_set_property env filter PROP_DEBUG value)) ∧
    (∀ pspec ∈ gst_tensor_filter_class_init,
      (pspec.name = "input" ∨ pspec.name = "output") → pspec.element_bounds = some (1, 65535)) := by
  refine ⟨by decide, by decide, ?_, ?_, by decide⟩
  · intro env filter value name hname
    simp only [List.mem_cons, List.mem_singleton, List.not_mem_nil, or_false] at hname
    rcases hname with rfl | rfl | rfl | rfl | rfl | rfl <;> rfl
  · intro env filter value
    exact ⟨rfl, rfl⟩

/-! ## Output size and the integer chain of the transform -/

theorem arith_int32_operands :
    conv_float_to_int _NNS_INT32 2 = some 2 ∧
    conv_float_to_int _NNS_INT32 (-1) = some 4294967295 ∧
    int_value _NNS_INT32 2 = 2 ∧ int_value _NNS_INT32 4294967295 = -1 := by
  decide

/-- C23: for every uint8 input element x (0 to 255), the chain typecast:int32,
mul:2, div:2, add:-1 produces the int32 element whose value is x - 1: the
typecast gives x as int32, mul:2 gives 2x, div:2 gives x again and add:-1
subtracts one, each step in the int32 working type and in chain order. -/
theorem arithmetic_5_subtracts_one (x : Nat) (hx : x < 256) :
    exec_chain _NNS_UINT8 [OperationStep.Typecast _NNS_INT32] x = some (_NNS_INT32, x) ∧
    exec_chain _NNS_UINT8
      [OperationStep.Typecast _NNS_INT32, OperationStep.Arithmetic Operator.mul 2] x =
        some (_NNS_INT32, 2 * x) ∧
    exec_chain _NNS_UINT8
      [OperationStep.Typecast _NNS_INT32, OperationStep.Arithmetic Operator.mul 2,
        OperationStep.Arithmetic Operator.div 2] x = some (_NNS_INT32, x) ∧
    exec_chain _NNS_UINT8 chain_arithmetic_5 x =
      some (_NNS_INT32, int_bits _NNS_INT32 ((x : Int) - 1)) ∧
    int_value _NNS_INT32 (int_bits _NNS_INT32 ((x : Int) - 1)) = (x : Int) - 1 := by
  obtain ⟨c2, cm1, v2, vm1⟩ := arith_int32_operands
  have hcast : conv_int_to_int _NNS_UINT8 _NNS_INT32 x = x := by
    simp [conv_int_to_int, bit_width, tensor_element_size, is_signed, zero_extend]
  have hvx : int_value _NNS_INT32 x = (x : Int) := by
    rw [int_value_int32 x (by omega), if_neg (by omega)]
  have hv2x : int_value _NNS_INT32 (2 * x) = 2 * (x : Int) := by
    rw [int_value_int32 (2 * x) (by omega), if_neg (by omega)]
    push_cast; ring
  have hb1 : int_bits _NNS_INT32 ((x : Int) * 2) = 2 * x := by
    simp only [int_bits, bit_width, tensor_element_size]
    omega
  have hb2 : int_bits _NNS_INT32 (Int.tdiv (2 * (x : Int)) 2) = x := by
    simp only [int_bits, bit_width, tensor_element_size]
    rw [Int.tdiv_eq_ediv (by omega) (by decide)]
    omega
  have hmul : arith_int _NNS_INT32 Operator.mul 2 x = some (2 * x) := by
    simp only [arith_int, c2, v2, hvx, hb1]
  have hdiv : arith_int _NNS_INT32 Operator.div 2 (2 * x) = some x := by
    simp only [arith_int, c2, v2, hv2x, hb2]
    simp
  have hadd : arith_int _NNS_INT32 Operator.add (-1) x =
      some (int_bits _NNS_INT32 ((x : Int) - 1)) := by
    simp only [arith_int, cm1, vm1, hvx]
    rfl
  refine ⟨?_, ?_, ?_, ?_, ?_⟩
  · simp [exec_chain, exec_steps, exec_step, is_integer, negotiate_step, hcast]
  · simp [exec_chain, exec_steps, exec_step, is_integer, negotiate_step, hcast, hmul]
  · simp [exec_chain, exec_steps, exec_step, is_integer, negotiate_step, hcast, hmul, hdiv]
  · simp [exec_chain, chain_arithmetic_5, exec_steps, exec_step, is_integer, negotiate_step,
      hcast, hmul, hdiv, hadd]
  · simp only [int_bits, bit_width, tensor_element_size]
    by_cases h0 : x = 0
    · subst h0; decide
    · have hb : (((x : Int) - 1) % 2 ^ (8 * 4)).toNat = x - 1 := by omega
      rw [hb, int_value_int32 (x - 1) (by omega), if_neg (by omega)]
      omega

/-- C23 at the elements 0, 5 and 255: the chain gives the int32 patterns of
-1, 4 and 254. -/
theorem arithmetic_5_subtracts_one_witness :
    exec_chain _NNS_UINT8 chain_arithmetic_5 0 = some (_NNS_INT32, 4294967295) ∧
    int_value _NNS_INT32 4294967295 = -1 ∧
    exec_chain _NNS_UINT8 chain_arithmetic_5 5 = some (_NNS_INT32, 4) ∧
    exec_chain _NNS_UINT8 chain_arithmetic_5 255 = some (_NNS_INT32, 254) :=
  ⟨(arithmetic_5_subtracts_one 0 (by decide)).2.2.2.1,
    (arithmetic_5_subtracts_one 0 (by decide)).2.2.2.2,
    (arithmetic_5_subtracts_one 5 (by decide)).2.2.2.1,
    (arithmetic_5_subtracts_one 255 (by decide)).2.2.2.1⟩

end NNStreamer
